import Mathlib

/-!
Verification of the mnemonic word-encoding library (Rust crate `mnemonic`,
file `src/lib.rs`): a codec turning byte sequences into sequences of common
English words and back.  The Rust functions are embedded shallowly: bytes are
`Nat`s (with `< 256` hypotheses where the `u8` type matters), `u32`
arithmetic is `Nat` arithmetic reduced modulo `2 ^ 32`, fallible functions
return `Except`, and the two index-based scanning loops of
`encode_with_format` are rendered as structural recursion over the remaining
suffix of the template together with an explicit fuel parameter (the Rust
loop does not structurally terminate; a template without letters loops
forever, which the embedding renders as running out of fuel).
-/

set_option maxHeartbeats 2000000
set_option maxRecDepth 20000

/-- Bytes of a string literal; used to transcribe the Rust `&[u8]` literals. -/
def strBytes (s : String) : List Nat := s.toList.map Char.toNat

/-- Reduction modulo `2 ^ 32`, the semantics of Rust `u32` results. -/
def u32 (n : Nat) : Nat := n % 4294967296

/-- Wrapping `u32` addition. -/
def u32add (a b : Nat) : Nat := u32 (a + b)

/-- Wrapping `u32` multiplication. -/
def u32mul (a b : Nat) : Nat := u32 (a * b)

/-- `MN_BASE`: cubic root of `2^32`, rounded up (source line 83). -/
def MN_BASE : Nat := 1626

/-- `MN_REMAINDER`: number of extra words for 24 bit remainders (source line 86). -/
def MN_REMAINDER : Nat := 7

/-- `MN_FDEFAULT`: default format for encoding, the byte string `"x-x-x--"` (source line 89). -/
def MN_FDEFAULT : List Nat := strBytes "x-x-x--"

/-- The 1633 words of `MN_WORDS` (source lines 91-365), as string literals. -/
def MN_WORDS_STR : List String := [
  "academy", "acrobat", "active", "actor", "adam", "admiral", "adrian", "africa", "agenda", "agent", 
  "airline", "airport", "aladdin", "alarm", "alaska", "albert", "albino", "album", "alcohol", 
  "alex", "algebra", "alibi", "alice", "alien", "alpha", "alpine", "amadeus", "amanda", "amazon", 
  "amber", "america", "amigo", "analog", "anatomy", "angel", "animal", "antenna", "antonio", 
  "apollo", "april", "archive", "arctic", "arizona", "arnold", "aroma", "arthur", "artist", "asia", 
  "aspect", "aspirin", "athena", "athlete", "atlas", "audio", "august", "austria", "axiom", "aztec", 
  "balance", "ballad", "banana", "bandit", "banjo", "barcode", "baron", "basic", "battery", 
  "belgium", "berlin", "bermuda", "bernard", "bikini", "binary", "bingo", "biology", "block", 
  "blonde", "bonus", "boris", "boston", "boxer", "brandy", "bravo", "brazil", "bronze", "brown", 
  "bruce", "bruno", "burger", "burma", "cabinet", "cactus", "cafe", "cairo", "cake", "calypso", 
  "camel", "camera", "campus", "canada", "canal", "cannon", "canoe", "cantina", "canvas", "canyon", 
  "capital", "caramel", "caravan", "carbon", "cargo", "carlo", "carol", "carpet", "cartel", 
  "casino", "castle", "castro", "catalog", "caviar", "cecilia", "cement", "center", "century", 
  "ceramic", "chamber", "chance", "change", "chaos", "charlie", "charm", "charter", "chef", 
  "chemist", "cherry", "chess", "chicago", "chicken", "chief", "china", "cigar", "cinema", "circus", 
  "citizen", "city", "clara", "classic", "claudia", "clean", "client", "climax", "clinic", "clock", 
  "club", "cobra", "coconut", "cola", "collect", "colombo", "colony", "color", "combat", "comedy", 
  "comet", "command", "compact", "company", "complex", "concept", "concert", "connect", "consul", 
  "contact", "context", "contour", "control", "convert", "copy", "corner", "corona", "correct", 
  "cosmos", "couple", "courage", "cowboy", "craft", "crash", "credit", "cricket", "critic", "crown", 
  "crystal", "cuba", "culture", "dallas", "dance", "daniel", "david", "decade", "decimal", 
  "deliver", "delta", "deluxe", "demand", "demo", "denmark", "derby", "design", "detect", "develop", 
  "diagram", "dialog", "diamond", "diana", "diego", "diesel", "diet", "digital", "dilemma", 
  "diploma", "direct", "disco", "disney", "distant", "doctor", "dollar", "dominic", "domino", 
  "donald", "dragon", "drama", "dublin", "duet", "dynamic", "east", "ecology", "economy", "edgar", 
  "egypt", "elastic", "elegant", "element", "elite", "elvis", "email", "energy", "engine", 
  "english", "episode", "equator", "escort", "ethnic", "europe", "everest", "evident", "exact", 
  "example", "exit", "exotic", "export", "express", "extra", "fabric", "factor", "falcon", "family", 
  "fantasy", "fashion", "fiber", "fiction", "fidel", "fiesta", "figure", "film", "filter", "final", 
  "finance", "finish", "finland", "flash", "florida", "flower", "fluid", "flute", "focus", "ford", 
  "forest", "formal", "format", "formula", "fortune", "forum", "fragile", "france", "frank", 
  "friend", "frozen", "future", "gabriel", "galaxy", "gallery", "gamma", "garage", "garden", 
  "garlic", "gemini", "general", "genetic", "genius", "germany", "global", "gloria", "golf", 
  "gondola", "gong", "good", "gordon", "gorilla", "grand", "granite", "graph", "green", "group", 
  "guide", "guitar", "guru", "hand", "happy", "harbor", "harmony", "harvard", "havana", "hawaii", 
  "helena", "hello", "henry", "hilton", "history", "horizon", "hotel", "human", "humor", "icon", 
  "idea", "igloo", "igor", "image", "impact", "import", "index", "india", "indigo", "input", 
  "insect", "instant", "iris", "italian", "jacket", "jacob", "jaguar", "janet", "japan", "jargon", 
  "jazz", "jeep", "john", "joker", "jordan", "jumbo", "june", "jungle", "junior", "jupiter", 
  "karate", "karma", "kayak", "kermit", "kilo", "king", "koala", "korea", "labor", "lady", "lagoon", 
  "laptop", "laser", "latin", "lava", "lecture", "left", "legal", "lemon", "level", "lexicon", 
  "liberal", "libra", "limbo", "limit", "linda", "linear", "lion", "liquid", "liter", "little", 
  "llama", "lobby", "lobster", "local", "logic", "logo", "lola", "london", "lotus", "lucas", 
  "lunar", "machine", "macro", "madam", "madonna", "madrid", "maestro", "magic", "magnet", "magnum", 
  "major", "mama", "mambo", "manager", "mango", "manila", "marco", "marina", "market", "mars", 
  "martin", "marvin", "master", "matrix", "maximum", "media", "medical", "mega", "melody", "melon", 
  "memo", "mental", "mentor", "menu", "mercury", "message", "metal", "meteor", "meter", "method", 
  "metro", "mexico", "miami", "micro", "million", "mineral", "minimum", "minus", "minute", 
  "miracle", "mirage", "miranda", "mister", "mixer", "mobile", "model", "modem", "modern", 
  "modular", "moment", "monaco", "monica", "monitor", "mono", "monster", "montana", "morgan", 
  "motel", "motif", "motor", "mozart", "multi", "museum", "music", "mustang", "natural", "neon", 
  "nepal", "neptune", "nerve", "neutral", "nevada", "news", "ninja", "nirvana", "normal", "nova", 
  "novel", "nuclear", "numeric", "nylon", "oasis", "object", "observe", "ocean", "octopus", 
  "olivia", "olympic", "omega", "opera", "optic", "optimal", "orange", "orbit", "organic", "orient", 
  "origin", "orlando", "oscar", "oxford", "oxygen", "ozone", "pablo", "pacific", "pagoda", "palace", 
  "pamela", "panama", "panda", "panel", "panic", "paradox", "pardon", "paris", "parker", "parking", 
  "parody", "partner", "passage", "passive", "pasta", "pastel", "patent", "patriot", "patrol", 
  "patron", "pegasus", "pelican", "penguin", "pepper", "percent", "perfect", "perfume", "period", 
  "permit", "person", "peru", "phone", "photo", "piano", "picasso", "picnic", "picture", "pigment", 
  "pilgrim", "pilot", "pirate", "pixel", "pizza", "planet", "plasma", "plaster", "plastic", "plaza", 
  "pocket", "poem", "poetic", "poker", "polaris", "police", "politic", "polo", "polygon", "pony", 
  "popcorn", "popular", "postage", "postal", "precise", "prefix", "premium", "present", "price", 
  "prince", "printer", "prism", "private", "product", "profile", "program", "project", "protect", 
  "proton", "public", "pulse", "puma", "pyramid", "queen", "radar", "radio", "random", "rapid", 
  "rebel", "record", "recycle", "reflex", "reform", "regard", "regular", "relax", "report", 
  "reptile", "reverse", "ricardo", "ringo", "ritual", "robert", "robot", "rocket", "rodeo", "romeo", 
  "royal", "russian", "safari", "salad", "salami", "salmon", "salon", "salute", "samba", "sandra", 
  "santana", "sardine", "school", "screen", "script", "second", "secret", "section", "segment", 
  "select", "seminar", "senator", "senior", "sensor", "serial", "service", "sheriff", "shock", 
  "sierra", "signal", "silicon", "silver", "similar", "simon", "single", "siren", "slogan", 
  "social", "soda", "solar", "solid", "solo", "sonic", "soviet", "special", "speed", "spiral", 
  "spirit", "sport", "static", "station", "status", "stereo", "stone", "stop", "street", "strong", 
  "student", "studio", "style", "subject", "sultan", "super", "susan", "sushi", "suzuki", "switch", 
  "symbol", "system", "tactic", "tahiti", "talent", "tango", "tarzan", "taxi", "telex", "tempo", 
  "tennis", "texas", "textile", "theory", "thermos", "tiger", "titanic", "tokyo", "tomato", "topic", 
  "tornado", "toronto", "torpedo", "total", "totem", "tourist", "tractor", "traffic", "transit", 
  "trapeze", "travel", "tribal", "trick", "trident", "trilogy", "tripod", "tropic", "trumpet", 
  "tulip", "tuna", "turbo", "twist", "ultra", "uniform", "union", "uranium", "vacuum", "valid", 
  "vampire", "vanilla", "vatican", "velvet", "ventura", "venus", "vertigo", "veteran", "victor", 
  "video", "vienna", "viking", "village", "vincent", "violet", "violin", "virtual", "virus", "visa", 
  "vision", "visitor", "visual", "vitamin", "viva", "vocal", "vodka", "volcano", "voltage", 
  "volume", "voyage", "water", "weekend", "welcome", "western", "window", "winter", "wizard", 
  "wolf", "world", "xray", "yankee", "yoga", "yogurt", "yoyo", "zebra", "zero", "zigzag", "zipper", 
  "zodiac", "zoom", "abraham", "action", "address", "alabama", "alfred", "almond", "ammonia", 
  "analyze", "annual", "answer", "apple", "arena", "armada", "arsenal", "atlanta", "atomic", 
  "avenue", "average", "bagel", "baker", "ballet", "bambino", "bamboo", "barbara", "basket", 
  "bazaar", "benefit", "bicycle", "bishop", "blitz", "bonjour", "bottle", "bridge", "british", 
  "brother", "brush", "budget", "cabaret", "cadet", "candle", "capitan", "capsule", "career", 
  "cartoon", "channel", "chapter", "cheese", "circle", "cobalt", "cockpit", "college", "compass", 
  "comrade", "condor", "crimson", "cyclone", "darwin", "declare", "degree", "delete", "delphi", 
  "denver", "desert", "divide", "dolby", "domain", "domingo", "double", "drink", "driver", "eagle", 
  "earth", "echo", "eclipse", "editor", "educate", "edward", "effect", "electra", "emerald", 
  "emotion", "empire", "empty", "escape", "eternal", "evening", "exhibit", "expand", "explore", 
  "extreme", "ferrari", "first", "flag", "folio", "forget", "forward", "freedom", "fresh", "friday", 
  "fuji", "galileo", "garcia", "genesis", "gold", "gravity", "habitat", "hamlet", "harlem", 
  "helium", "holiday", "house", "hunter", "ibiza", "iceberg", "imagine", "infant", "isotope", 
  "jackson", "jamaica", "jasmine", "java", "jessica", "judo", "kitchen", "lazarus", "letter", 
  "license", "lithium", "loyal", "lucky", "magenta", "mailbox", "manual", "marble", "mary", 
  "maxwell", "mayor", "milk", "monarch", "monday", "money", "morning", "mother", "mystery", 
  "native", "nectar", "nelson", "network", "next", "nikita", "nobel", "nobody", "nominal", "norway", 
  "nothing", "number", "october", "office", "oliver", "opinion", "option", "order", "outside", 
  "package", "pancake", "pandora", "panther", "papa", "patient", "pattern", "pedro", "pencil", 
  "people", "phantom", "philips", "pioneer", "pluto", "podium", "portal", "potato", "prize", 
  "process", "protein", "proxy", "pump", "pupil", "python", "quality", "quarter", "quiet", "rabbit", 
  "radical", "radius", "rainbow", "ralph", "ramirez", "ravioli", "raymond", "respect", "respond", 
  "result", "resume", "retro", "richard", "right", "risk", "river", "roger", "roman", "rondo", 
  "sabrina", "salary", "salsa", "sample", "samuel", "saturn", "savage", "scarlet", "scoop", 
  "scorpio", "scratch", "scroll", "sector", "serpent", "shadow", "shampoo", "sharon", "sharp", 
  "short", "shrink", "silence", "silk", "simple", "slang", "smart", "smoke", "snake", "society", 
  "sonar", "sonata", "soprano", "source", "sparta", "sphere", "spider", "sponsor", "spring", "acid", 
  "adios", "agatha", "alamo", "alert", "almanac", "aloha", "andrea", "anita", "arcade", "aurora", 
  "avalon", "baby", "baggage", "balloon", "bank", "basil", "begin", "biscuit", "blue", "bombay", 
  "brain", "brenda", "brigade", "cable", "carmen", "cello", "celtic", "chariot", "chrome", "citrus", 
  "civil", "cloud", "common", "compare", "cool", "copper", "coral", "crater", "cubic", "cupid", 
  "cycle", "depend", "door", "dream", "dynasty", "edison", "edition", "enigma", "equal", "eric", 
  "event", "evita", "exodus", "extend", "famous", "farmer", "food", "fossil", "frog", "fruit", 
  "geneva", "gentle", "george", "giant", "gilbert", "gossip", "gram", "greek", "grille", "hammer", 
  "harvest", "hazard", "heaven", "herbert", "heroic", "hexagon", "husband", "immune", "inca", 
  "inch", "initial", "isabel", "ivory", "jason", "jerome", "joel", "joshua", "journal", "judge", 
  "juliet", "jump", "justice", "kimono", "kinetic", "leonid", "lima", "maze", "medusa", "member", 
  "memphis", "michael", "miguel", "milan", "mile", "miller", "mimic", "mimosa", "mission", "monkey", 
  "moral", "moses", "mouse", "nancy", "natasha", "nebula", "nickel", "nina", "noise", "orchid", 
  "oregano", "origami", "orinoco", "orion", "othello", "paper", "paprika", "prelude", "prepare", 
  "pretend", "profit", "promise", "provide", "puzzle", "remote", "repair", "reply", "rival", 
  "riviera", "robin", "rose", "rover", "rudolf", "saga", "sahara", "scholar", "shelter", "ship", 
  "shoe", "sigma", "sister", "sleep", "smile", "spain", "spark", "split", "spray", "square", 
  "stadium", "star", "storm", "story", "strange", "stretch", "stuart", "subway", "sugar", "sulfur", 
  "summer", "survive", "sweet", "swim", "table", "taboo", "target", "teacher", "telecom", "temple", 
  "tibet", "ticket", "tina", "today", "toga", "tommy", "tower", "trivial", "tunnel", "turtle", 
  "twin", "uncle", "unicorn", "unique", "update", "valery", "vega", "version", "voodoo", "warning", 
  "william", "wonder", "year", "yellow", "young", "absent", "absorb", "accent", "alfonso", "alias", 
  "ambient", "andy", "anvil", "appear", "apropos", "archer", "ariel", "armor", "arrow", "austin", 
  "avatar", "axis", "baboon", "bahama", "bali", "balsa", "bazooka", "beach", "beast", "beatles", 
  "beauty", "before", "benny", "betty", "between", "beyond", "billy", "bison", "blast", "bless", 
  "bogart", "bonanza", "book", "border", "brave", "bread", "break", "broken", "bucket", "buenos", 
  "buffalo", "bundle", "button", "buzzer", "byte", "caesar", "camilla", "canary", "candid", 
  "carrot", "cave", "chant", "child", "choice", "chris", "cipher", "clarion", "clark", "clever", 
  "cliff", "clone", "conan", "conduct", "congo", "content", "costume", "cotton", "cover", "crack", 
  "current", "danube", "data", "decide", "desire", "detail", "dexter", "dinner", "dispute", "donor", 
  "druid", "drum", "easy", "eddie", "enjoy", "enrico", "epoxy", "erosion", "except", "exile", 
  "explain", "fame", "fast", "father", "felix", "field", "fiona", "fire", "fish", "flame", "flex", 
  "flipper", "float", "flood", "floor", "forbid", "forever", "fractal", "frame", "freddie", "front", 
  "fuel", "gallop", "game", "garbo", "gate", "gibson", "ginger", "giraffe", "gizmo", "glass", 
  "goblin", "gopher", "grace", "gray", "gregory", "grid", "griffin", "ground", "guest", "gustav", 
  "gyro", "hair", "halt", "harris", "heart", "heavy", "herman", "hippie", "hobby", "honey", "hope", 
  "horse", "hostel", "hydro", "imitate", "info", "ingrid", "inside", "invent", "invest", "invite", 
  "iron", "ivan", "james", "jester", "jimmy", "join", "joseph", "juice", "julius", "july", "justin", 
  "kansas", "karl", "kevin", "kiwi", "ladder", "lake", "laura", "learn", "legacy", "legend", 
  "lesson", "life", "light", "list", "locate", "lopez", "lorenzo", "love", "lunch", "malta", 
  "mammal", "margo", "marion", "mask", "match", "mayday", "meaning", "mercy", "middle", "mike", 
  "mirror", "modest", "morph", "morris", "nadia", "nato", "navy", "needle", "neuron", "never", 
  "newton", "nice", "night", "nissan", "nitro", "nixon", "north", "oberon", "octavia", "ohio", 
  "olga", "open", "opus", "orca", "oval", "owner", "page", "paint", "palma", "parade", "parent", 
  "parole", "paul", "peace", "pearl", "perform", "phoenix", "phrase", "pierre", "pinball", "place", 
  "plate", "plato", "plume", "pogo", "point", "polite", "polka", "poncho", "powder", "prague", 
  "press", "presto", "pretty", "prime", "promo", "quasi", "quest", "quick", "quiz", "quota", "race", 
  "rachel", "raja", "ranger", "region", "remark", "rent", "reward", "rhino", "ribbon", "rider", 
  "road", "rodent", "round", "rubber", "ruby", "rufus", "sabine", "saddle", "sailor", "saint", 
  "salt", "satire", "scale", "scuba", "season", "secure", "shake", "shallow", "shannon", "shave", 
  "shelf", "sherman", "shine", "shirt", "side", "sinatra", "sincere", "size", "slalom", "slow", 
  "small", "snow", "sofia", "song", "sound", "south", "speech", "spell", "spend", "spoon", "stage", 
  "stamp", "stand", "state", "stella", "stick", "sting", "stock", "store", "sunday", "sunset", 
  "support", "sweden", "swing", "tape", "think", "thomas", "tictac", "time", "toast", "tobacco", 
  "tonight", "torch", "torso", "touch", "toyota", "trade", "tribune", "trinity", "triton", "truck", 
  "trust", "type", "under", "unit", "urban", "urgent", "user", "value", "vendor", "venice", 
  "verona", "vibrate", "virgo", "visible", "vista", "vital", "voice", "vortex", "waiter", "watch", 
  "wave", "weather", "wedding", "wheel", "whiskey", "wisdom", "deal", "null", "nurse", "quebec", 
  "reserve", "reunion", "roof", "singer", "verbal", "amen", "ego", "fax", "jet", "job", "rio", 
  "ski", "yes"]

/-- `MN_WORDS`: the static dictionary, each word a byte sequence (Rust `&[u8]`). -/
def MN_WORDS : List (List Nat) := MN_WORDS_STR.map strBytes

/-- `MN_WORD_INDEX` (source lines 367-376): map from words to indices in the
`MN_WORDS` array, built by inserting `(word, i)` for `i = 0, 1, ...` into a
hash map.  A later insertion overwrites an earlier one with an equal key, so
lookup returns the LAST index whose word equals `w`; the reversed enumeration
realises exactly that. -/
def MN_WORD_INDEX (w : List Nat) : Option Nat :=
  ((MN_WORDS.enum.reverse).find? (fun p => p.2 == w)).map (fun p => p.1)

/-- Errors returned by mnemonic decoding (source lines 44-53).  The `Io`
variant is not modelled: the embedding writes to a pure list, which never
fails, matching `Vec<u8>` as destination. -/
inductive MnError
  | unrecognizedWord
  | unexpectedRemainder
  | unexpectedRemainderWord
  | dataPastRemainder
  | invalidEncoding
deriving DecidableEq

deriving instance DecidableEq for Except

/-- `mn_words_required` (source lines 444-446): the number of words required
to encode `src`. -/
def mn_words_required (src : List Nat) : Nat := (src.length + 1) * 3 / 4

/-- The accumulation loop of `mn_encode_word` (source lines 452-454):
`for (i, b) in src[offset..].iter().take(4).enumerate() { x |= (*b as u32) << (i * 8) }`. -/
def chunkAccum : List Nat → Nat → Nat → Nat
  | [], _, x => x
  | b :: bs, i, x => chunkAccum bs (i + 1) (x ||| u32 (b <<< (8 * i)))

/-- `mn_encode_word` (source lines 449-471): the `n`th word in the encoding of `src`. -/
def mn_encode_word (src : List Nat) (n : Nat) : List Nat :=
  let offset := n / 3 * 4
  let x := chunkAccum ((src.drop offset).take 4) 0 0
  match n % 3 with
  | 2 =>
    let extra := if src.length - offset = 3 then MN_BASE else 0
    MN_WORDS.getD ((x / (MN_BASE * MN_BASE)) % MN_BASE + extra) []
  | 1 => MN_WORDS.getD ((x / MN_BASE) % MN_BASE) []
  | _ => MN_WORDS.getD (x % MN_BASE) []

/-- `is_ascii_alpha` (source lines 473-479). -/
def is_ascii_alpha (b : Nat) : Bool :=
  (decide (97 ≤ b) && decide (b ≤ 122)) || (decide (65 ≤ b) && decide (b ≤ 90))

/-- First inner loop of `encode_with_format` (source lines 411-414): copy
characters to the output while they are not letters.  The Rust loop advances
an index `i` over `format` and stops at `format.len()`; the embedding
consumes the remaining suffix instead, returning the copied separator bytes
and the rest of the suffix (empty iff the Rust loop stopped with
`i == format.len()`). -/
def skipNonLetters : List Nat → List Nat × List Nat
  | [] => ([], [])
  | c :: rest =>
    if is_ascii_alpha c then ([], c :: rest)
    else
      let (sep, r) := skipNonLetters rest
      (c :: sep, r)

/-- Second inner loop of `encode_with_format` (source lines 419-421):
`while is_ascii_alpha(format[i]) { i += 1 }`.  The condition indexes
`format[i]` without a bounds check, so reaching the end of the template
inside a letter run is an out-of-bounds panic, rendered as `none`. -/
def skipLetters : List Nat → Option (List Nat)
  | [] => none
  | c :: rest => if is_ascii_alpha c then skipLetters rest else some (c :: rest)

/-- Outcome of `encode_with_format`: normal output, an index-out-of-bounds
panic, or non-termination within the supplied fuel. -/
inductive EncOut
  | diverge
  | panicked
  | ok (out : List Nat)
deriving DecidableEq

/-- Prepend literal output bytes to the result of the remaining loop iterations. -/
def prependE (p : List Nat) : EncOut → EncOut
  | .ok out => .ok (p ++ out)
  | e => e

/-- The outer `while n < num_words` loop of `encode_with_format` (source
lines 410-424), one fuel unit per iteration.  `cur` is the remaining suffix
of `fmt` (Rust: `&format[i..]`); when the separator scan exhausts the
template, the index wraps to `0` (`cur` resets to `fmt`). -/
def encodeGo (src fmt : List Nat) (numWords : Nat) : Nat → Nat → List Nat → EncOut
  | 0, _, _ => .diverge
  | fuel + 1, n, cur =>
    if numWords ≤ n then .ok []
    else
      match skipNonLetters cur with
      | (sep, []) => prependE sep (encodeGo src fmt numWords fuel n fmt)
      | (sep, c :: rest) =>
        match skipLetters (c :: rest) with
        | none => .panicked
        | some cur2 =>
          prependE (sep ++ mn_encode_word src n) (encodeGo src fmt numWords fuel (n + 1) cur2)

/-- `encode_with_format` (source lines 398-426).  `2 * num_words + 2` fuel
units suffice whenever the loop terminates at all (proved below); a template
with no letters exhausts any fuel, matching the Rust infinite loop. -/
def encode_with_format (src fmt : List Nat) : EncOut :=
  encodeGo src fmt (mn_words_required src) (2 * mn_words_required src + 2) 0 fmt

/-- `encode` (source lines 388-393): encode with the default template. -/
def encode (src : List Nat) : EncOut := encode_with_format src MN_FDEFAULT

/-- Little-endian value of a byte list (each byte contributing `256^i`). -/
def leVal : List Nat → Nat
  | [] => 0
  | b :: bs => b + 256 * leVal bs

/-- `LittleEndian::write_u32`: the four little-endian bytes of a `u32`. -/
def le4 (x : Nat) : List Nat :=
  [x % 256, x / 256 % 256, x / 65536 % 256, x / 16777216 % 256]

/-- `src.split(|c| !is_ascii_alpha(*c))` (source line 500): split at every
non-letter byte; delimiters are dropped and empty pieces are kept. -/
def splitNonAlpha : List Nat → List (List Nat)
  | [] => [[]]
  | c :: rest =>
    if is_ascii_alpha c then
      match splitNonAlpha rest with
      | t :: ts => (c :: t) :: ts
      | [] => [[c]]
    else [] :: splitNonAlpha rest

/-- The token stream of `decode` (source lines 500-501): split on non-letter
bytes, discarding empty pieces. -/
def tokens (src : List Nat) : List (List Nat) :=
  (splitNonAlpha src).filter (fun w => !w.isEmpty)

/-- `mn_decode_word_index` (source lines 522-552): fold one word index into
the accumulator `x` at byte position `offset`. -/
def mn_decode_word_index (index x offset : Nat) : Except MnError (Nat × Nat) :=
  if MN_BASE ≤ index ∧ offset % 4 ≠ 2 then .error .unexpectedRemainderWord
  else
    match offset % 4 with
    | 3 => .error .dataPastRemainder
    | 2 =>
      if MN_BASE ≤ index then
        .ok (u32add x (u32mul (u32mul (index - MN_BASE) MN_BASE) MN_BASE), offset + 1)
      else if 1625 ≤ index ∨ (index = 1624 ∧ 1312671 < x) then .error .invalidEncoding
      else .ok (u32add x (u32mul (u32mul index MN_BASE) MN_BASE), offset + 2)
    | 1 => .ok (u32add x (u32mul index MN_BASE), offset + 1)
    | _ => .ok (index, offset + 1)

/-- `mn_decode_finish` (source lines 554-559). -/
def mn_decode_finish (x remainder : Nat) : Except MnError Unit :=
  if (remainder = 2 ∧ 65535 < x) ∨ (remainder = 1 ∧ 255 < x) then .error .unexpectedRemainder
  else .ok ()

/-- The `for word in words` loop of `decode` (source lines 502-510),
threading the accumulator, the offset and the bytes written so far; a
completed 4-byte chunk is flushed little-endian and the accumulator reset. -/
def decodeWords : List (List Nat) → Nat → Nat → List Nat → Except MnError (List Nat × Nat × Nat)
  | [], x, offset, out => .ok (out, x, offset)
  | w :: ws, x, offset, out =>
    match MN_WORD_INDEX w with
    | none => .error .unrecognizedWord
    | some i =>
      match mn_decode_word_index i x offset with
      | .error e => .error e
      | .ok (x2, offset2) =>
        if offset2 % 4 = 0 then decodeWords ws 0 offset2 (out ++ le4 x2)
        else decodeWords ws x2 offset2 out

/-- `decode` (source lines 493-520): returns the decoded bytes and the byte
count (Rust returns the count, writing the bytes to `dest`). -/
def decode (src : List Nat) : Except MnError (List Nat × Nat) :=
  match decodeWords (tokens src) 0 0 [] with
  | .error e => .error e
  | .ok (out, x, offset) =>
    let remainder := offset % 4
    let out2 := if 0 < remainder then out ++ (le4 x).take remainder else out
    match mn_decode_finish x remainder with
    | .error e => .error e
    | .ok _ => .ok (out2, offset)

/-- Certificate for the distinctness of the 1633 dictionary words: each word
is condensed to a numeric key (its bytes read base-256 behind a leading 1). -/
def wkey (w : List Nat) : Nat := w.foldl (fun a c => a * 256 + c) 1

/-- The 1633 word keys, packed into one number, 60 bits per key. -/
def KEYS_BLOB : Nat := 1780135124846509604255751965867838850056375896753822038643117445156010272202677816734516669076767767544212295954645427310684643756432815301900401820128265317643732864713843231918357480852453934850757730215307221724799844756860296945525683303980527359375561373218549822712748791473399250419397527253040270262122977265518205105185961233041461569379583824088846816914147183060943748865985755256216278331740823254420988516943771312769208378380028809248396794480463716870289205748281792939962454810269736377218870377235944118188453312808717727449830915912393753131359383311972660920068124797206147793302988440094442157813858806969149817909021474911108914735119238332268831622905712986298581803044595720679096803285765896731421492645928255987154806736909719020288627522351560649607336073159746512557400770101101816069061485617568056560838722439631235406912000754484433500018650474017619789177083855968286060518805982939913313355822966902316416933309782312401492391160958848276128583037820765606993407663033900929423758718662997879003456539478730539888641482164208188444330524292443042849487080480121112669525224729894528239359880702966253612682630044838183837119767878998160345180408036339846432260996616444953091674954824371662323814406772779966383529148042421393941317078177017192901013860936957001548275958732158272104451932795542025196826998293846758914247183504885703500478849203336415290696424357971416854270821353686047397397285654371739333237771164272154871003166581440372176766157510531860068462614295042279779869834745354139280901271732011216506787650660075729281980507731981080187030961131595791820467988110263261050006704480121286340689889729879079298374723270679766714110114447240253742568143547527043236826623532378002970967618868728347881780775825527879394130586877533206713517531747604477917216679378879106609013601230036466661829537723629589890682233475334638881941989722065169972036786100992775584227940316358064039792258387567101135823366100698913018528619777086665841598789128625177728274469365293250763543620870110593741078586496093321714856595458646483881740187068001746538783338229261855409933024667926969380765791796241990597951921552457082679288818820693738905927089575237018960397354305702392326163836379552594629905259514181988548801092128588955448435571288372016828597369802442996241613482338212678609359015406467716786991713925426154102234459678005998875178633340903696826493397123664245888398604511293796652652640567686717421723229894355590662845829378879644022884465043191204973937502686349064965213192933693878149895598015354511948300698400136454197146198921722499252821235276695930564637251926653261950965604225388048818170453367488959437404287223314671952759494596828633303841811579005019125808855806080091801033568056662151944142846972433470904397461824985606525739806744652179575929278316700342492109871198119182406214948770818136226721895868593612214203736814628343029304541957251497243253617821496444820421130772635502983053263378471005984746228743093152757228936916958370006400020697330970861251836523169297289336551962522724005800510561525355508883778822640983002786069790828597006789905408359853206979525658941260791947438509683922098563472225489546601707650528697223229654319546322007636182652805778705403513300836027780613282974548405997352447866185287959186437148353645805109488346158232116700214779735747245328025624739682942219477334923369060973527922910199464640098710667359691984618434008192342108291206487454689282963826688194781144669432058773524743543836456635837630615325131828942460315532865418387196164843506899567486582767125594284223568952639131346772736055121652075257334232967952696669740971975447979131932329270866903529335749378578396564620072724350301797386100820806503111757654212678807408552534449419674101191027619690824914252945313461837164064570165604297597102129657778029821828924337709870681714930310508517513315275595969281193040492028786227728002808781153352757694858755009004034318978924991710275235609020559687287923046029204928472523063103664029193697270649342015161647546431655197869098415279621362972552364941645196003993048701780613873850256076815908861680710578623978042239118249504044954106803216398832594908067308512517948161799077622067985232708142055038534500343416014200679192381707999884885703193587805386236446953796823030639997201694329239315393521709875904266035966221190465862282954251065595920867177679239039855960120082124973366565357323464845351309964964385424960726827665367532410488128817659765000663081624947819317661453996504200474776298231988812158953421263900838445129081643641942366602312274328720030923817350869107014812803745244519274711771528775743337872461917709259447900970236787005364268871805516218644734937926244589313044439217347656116651351473307876099034513085089063498392007285033999095119248664818894678132354671325708157201310881237127405492540696281440704252581515531769257797595225056952753645380325170586924832237058517042623001568543029386650494678932286115473540883982971704919748421269952263104774796577401772229361941731385461694359620176520584518256309982532351825431340050029967161718428805599048729107635240132660041418367591991000854096855770455630185734590207291493495363933984408527095808950990910101152239169030214920263313640438117062105294579785117553997335649851899742239721814578448225191359745486117932001822693529953718681185042357007806476799833308278919581713119865927037364134335470552808535430105721378150917155675004261477928954150505136331956069354398734495068973782146826327197728310461805274058617639137087055596957474694025835805635104723308700971924206509971922707074993548714962697423514877336613435770444029079793476362796399925797450138332717658274624463931172067913809461403593968879405869696079219885570856872392684408740499128752907586221912507968857124223685237856096230204269854461401785984205730445322580448512318588366833886924105854594502108720433963791750086858004200640072186250171930445135909417976261718294586551685096292644447615785748253903207162618107208369384377392385348404237703601947274656277500277308714322199093805581534558793237554007309853477672283270002710326167481746627018771519543269261086115926783400768986364259707204739278439698356126562088108325141515075602795144009203914138941107377954601572485245658146997473503361059908247833389355424087228753766299835482371452277811112090839477332050990615200857944726618858531651067768790123764186984695284878514035185451737295054328862356016647487588654355552699993254449342356063784334190886280284818437556065757627257634429713321975840969750050768591779504248217610431140079632114553487645010964848928940790466460205734602058885084941575405733158903106373911724189225953933006398005448517327808923624159198983904913815334324809310063152524356786271864146400269247991365991856158571066923834921680250390892078195316839709465409298505599084694007492338416061339377932434558434246125950072810921081871080232663317019152804425441925909264124199881122247590251148534491611807065807372931960298063102265176512543357453623965859004942374717874787551728883269381319938819545300138221820764192797892734914538870765367611605454438084351658696132566131315770998074593539868423503297951296613545596200377098708070545137956907442834021014478122370545526849161356255385031690372752520538681974219515292118112611801659834810114638778613312954480230290976872952983913047083231531749785469768319859403752384865389346747618941936978581719382722232367561549886776381112243321639922511042991550455580863877434905274225430428877351263416483222292660875269275680711968472259089379460749884866220438364259124301205311279259798275067608217518328649858302767130754411376394126422319381527814887084656239450020666736026584920817950323393473289614810627398328472337210581102015094822744465052474133247938142904374429709140551588722776418156770319974244501202082311752992074646201509606199479473405914986108807929371764297726310881716063617260997010209371686055673477299711850520522095416869854961727526851459362625243796101071330105084766068740532499180486675920970399135559105853227180958700898190130760993048394349340831790701204412291619799902387084564788499502935656547275339460735407469122628017193662888927664058995774518833725319918565298861476745586433928647142682227217875959729716907382834331470197904928302885260226452695023454093116649747497946616677000969230413085963951820189624042723764804626480298803849645998775079837262447330112269971759122664948372316560583317456965384342087618797414165207785546567130450481746401028058863691765821915420898663847715890577089833508518733563698681891182686651793331553765453927538687354103053119040008241520469043121186290627022485128546938536527653612200419485956095017858637539409830104258938844919867950035335561905698453373856826891142880189942749141550348569119671187680719463565138662729290930123937208465851876241126577463201537214588721170422140168974596150352682851447088723847380234169222105182786830525451956377122444532079985901359219551835335958629378403994514961894572428159335474629456097018142585867750470685169536074414917593151942837347043470939028785911991128798575184824900658469567472325559541992084224857030279982834913788863440801020979369244225027312373230275444372155798935230467404900325372624582423570811273475567589212197974413379375705057228661549549621581583292140553327666237068229665299868787605757909618489484626065192064747205954976916569687755534055267127686453161630572619271345252564216913685952765494354148713466121798861489811686056002728314834351188292247094595618054487698161275017740880345014554094689479463996584711580764561214044572943201837138160086378556514298469359344702033724903991647704317388821378510748724095895333698191429815004877696781746414511083297774935248653751831822368938644591416109745208025687809520385817129214193795582650111917238842393283937129452131794361311931238797447222048966263529806159414088101788784861530515461398051890962819069050396157149014423885795074329442589917123544030805442661299583381984972292390762120274953826507874367478195786013479881183512188576699294704041366842904994832550622446052281155069590275336276229357255652335684996812676233807315062446324878954425475825409036443054096994095231081146839310777556871289780958203520852698792494667841472314445938195033960087034921080776374183706387315686310382202184942382543577995391212282299182745648231444544322263021493576434596907911755139356493949848836152097190826849371854992855581709951070829047595861074461321697569983434897188650195783657937074191826987629830567635720168140157151772084876364368942282087022010863620338436802007156928295196931056130660048994594181083855135881436747538707647307638596035490856523854731097318725459845701334552540324343086011865122307336352207733559717541297981279239197140022382130731115908895116268364071008888661970206635161717391206712499927790995119126773263074870417243585485011590666500323204381050611995405006625497206993324285562601034080739575518413491558564793429339223625805271604936846699050037954824851343572348646774824264326405736652725519232141010698800541496341621132875834397239929439243533926282423939650667305109251170702155353023242634455384463700425469752137999616120802125732016159900835325873686210749161873003258969532198550017248398213926474970414642344445774924325025355263119664804547446046968069905941278405591929730989678624350398521125192758596041439327466007671657003450621906894083031597886624504103990838999828443203095818132882856448871409035580576022186461404336792560860000252919143236319317807258488661342055970443160003046958259605111753337364572843791161779757503991466599819204626253033325744370391801484305075709003314602588028038036429417863291937438478120209308910793104992903110346975721177586756389676969109531418666995622004615070366803543445815699834326784353358020525324272375044222290057461019644361768650944920180243919063962429013187189261113669075574108081967383891814309365745349618855425104732824071484391408376091300760105372045332178490606374045370090690395939516841154808378935558660724608365875853900460883558183152466635248701303894216214973579948325053008061454997009301421430637055526006935641828927351872598790587358555110311979266290375510624023839438340598543400506507843142705790540253925721134194771537991686998259139951801899402997027233481730811406670631079121065881373488041129332554930080505527314936513385909428727262218477456287368260979507535444331079118679932353476779361606871181346435586444332388270752710367002519000337875976257421372636999688328414373112468032506104092621429747234061439117320119892562171762982400314380954439766873510070057877724410632183840970325407260988095546810547476252565273371285415792622671819343155527929698085999918110895588214627919975035029720989207387361988763037450633588947298887019812920703343138629256870304109725831620920364738956906826945581359326118824800330764331095585790587108253186521564552560936497231363726832036736319430390554789611638606828956697192375342494832841538102523722104989095638103837154797651217411053633041271362566595339134745267801915482782941830467694662169997931610462325775796275836809574946830727707613630536306735607385512359134869300467226094384855918269336750659399409094529487162956811759413266899676807766044652376218515238392413271933982496857951213399510041500680954464539472752572734353633797367874518481558202767514527795091136751976206004999833552053394192268980786830901771738288349695261430758000795392383017148659467464755979045520264186290135815167576238985713832581136790540643436582901882586077738044046090517904603091254754243167587057386419097752224401113017509711302552759454003158677314149524841090025376561318836294261589399993187048417125680017533976520367548180577999900768190856403538808203072249806011139007204790210571732651325930366870222814259190685122681398432899805965336589430751299481130432169877411904861724916062166065032423477087773147167843024361076534989668887284027995554511664301330700308916625849631207830679897399462645975050308834976316039444836570145311606216568976195411047113192535330524292602150332412323499864980070691002621232125630211971046451518597354499588201608184835666188105837641651569063046360288691779936161783678837377702325319639151512486185947625008097805073468525892722064996446240037121836230194185219502048031386068831968817850482589340745394890236640060687594536001273145769836843539751625021902033578182973355686088310620261365338088665571180345524665173042350389207532952968946894030740222689339619064536332222696964030735619178148750951651777050443491980763656604557513233440537372651688688218514359760181993234291564023082505592467499304890227651777871179268466082146268241866624682539524794581356630404636196544647570544068069713293071398702091775019312996176741743706897231824967081363172997170089859009158143981914798221333627554744278044594609893333369186718769250599807463268254918017906817912204059644477561259041220145056369295945493421026692418863133667492881644410229683205611970043258517440471730807846737792353796129185302027607645600109941523766757542062504008499399666058782323394273418012346970388848353594306257732402120735145526409012886507471270441628648425967605405565029953216988245838397542897828787052256416951788798086846365002267265048455003433271087095602101409152887926812952503017356005449128544952180232463768879988655107779145158240854389581747623075004444580040952441373487298087778881573309774913294383077666429284067195902683562942283127643131220116575209422162682342845988774225540352974592307936795048482348359907467556711867096921753793411540094692001907472972609030537164423455303917853964216991461658993945106054737930627961818110478310595907560904925298929010324606801967280826081429263461375418905313432713369943426198869436255591178235950240196243358186133562585748460898389220783049644179863231473470929283998903055730384880695241709825986749067334548508493771913246782486830861189980839129332203424481857253465209507061336825885734892142203766304908332008696842957786798556589743882101491945318619541214663275564324249636564805340831560303939774154350218639572485060779196748373754078214051662407995074816342047654763480362886315169602762354228552369201886549831707060124242567112972777014822385835766338541393937107243374280697784858509195445772018312168122344937134786466721255188454064253691514735467711376319678125230346350824575290392497387538109339513797507691493853517122867832461259373262013686251839925961471867183481752436717911370169956785884888520673172507828969459583760487321632647268202117658147104842964484892699304656195271127240515753142892459401643715389050261275805842042775561181009608405915710489588735348722161871548138153169501011507848580061802007648494605144873616323049286941765866272223247408341731237692584045289237312206310960316223857589659469547199879843100014681189799418275275041281077289245431997536931455858718323770231130712792788938464673085558756434634213018646437156969049649158256728736691793038512665505456061193821191060100889725885460405873507417995288673925213101568657745268262670151039174886868430909258096534253450072307582424993768481537115817593405272031688371954918740650642410102740349363927245117816332078132573297619155890626523458975399739882990866390468099302971387581360441739825804985567326170166066070479993096197345969148485745894906045745341749888243724760135275981419153749556118320761987259086250800473118870718293851568934630575942133574305368547958417324724630060863723982791295403069184394343341972806601903476099737761772796910640904442018203809657986337900558856344986823382117863842683588829756939479325908735681728153190754206186677793691066985243017139118647574378512625259586348740173027969460006328393432542467281760283946343277723574101460767101751356158819124599274286687457224931355238986599629837169521045677070279891598678005131573363264098525507022618385580058092969136030124098497514213768836344494188250195964780666049897409612617562467128267450003483985929523444903190859419397833580529148919125703135497737251403110016013677926594438223377226513978703517142695223598328751775268737912862350106936760341955953183625699107011539478265101387941811056139106029351843138740484942129137762463854710595043211271954381793649197538877874618209441615617062661519266100205897030108249708378901520622602041137116653828182484075305280165540778869035376086854118586610444006675547494937510054737286406127253936393923605392423967892616210505255759678173654765957401926531040942217621850740838232531933248780994710748060664358162353114728420998263948194443129670612097291959480385355092365701974116278609435769104237467091595681207388166060414239449092420965619495379786588171057789257795571134098687634536745044324149136248638170150564228817917909907159709257284045372002611046523238542147295870942734435990242965588287203005683783460742431189140524770542858388479672476037843834855386378699573223597338821293114370686136478261276513953278221673562319877707364691118228161812502476496909832180414113879368941839633636954368636467902599293099303636215966920953882621999982390920654502145640597257110624852430165413929306938513148511970149359917431134525761284378693754320857135054044143087697886201416122064942352761365936433755802150635237635247690960405156464104148677789715102250450851154358371779718340443105421072188612508886805278499444180291117881190566321599819023735123313009174750393769098801417470268822265458508530117378299915566100957634860635212497514273480623871324422098885857597426540045880865628007061330053594108753250019796762438103547186004790681024699717964970005005954598064067587832142706497898118704924807667128824365487024949631408866308034658138356995290714777472297164886630744395709868868085771157259129498988457258008153246860970070617987296832251110431868846778661400373892206289228161231726255918983340861353924519387285334712347491860861657910727127889602556098186483430779140239088608380993790677055626089429076350995787283782230966880540222599515678983569288762584878608732727398867672561329128141100586491409376672653198377679094719657253154238424880545457790708638654075525101630731799710805761141606964767235755354168270680856012293279415478951279543088900198711845732176322402584067843491220569914233983654434359426232686340997104359584497159474273740544838433491515549260072641689142096306663554399409890303264854851795159905024151484434564055197981910527839797182848044508496235224812118340363507825158222860709964033362391111421294638189429498852751614503318943119165726624624429486566373624529098902115841771601612456183348085370340917682433594567279756355326788560697913172798022262041336954256503827129387297158854414515692157831754190714811767234034542011512274436893402551759169169561313188925861663369982314260518331817925730617615083633685233243146302997232355243765939975940914579308890148283625858331251260315031415121419303865795316169902628461147340802031304646581949918664697516502179280480592347250827943923555688776965492905897411692831334461320312816892996426850206440319009574253677284061936071809258594071356064494341036069938438065877255224750983407480917448479382906191902767800280439364813851235228091652950769342536544222415265819544777307323990768896383167456428544736782035884407480087357033131765159644841728680208578592435722213464148360087471282542589431645720164344416428912834581462967140989524008316170953772416446115907136148859879959457243450763601940617609793561449318016868257124376097005908426024839413873780983176837817693029320252723352669068205039826440412688524091730837124575578467858078354568237673808741726536501563699735886382750086314674867690986045461983494475923981968080267387477481056232522574171830546272983350410768362547932094957901484218727274567767807463343887457401255676229887859895646770392665615546272270939545336345580056495927834351816521037519727426624247923268231261776744434380665291057747511780330348632009068463284174803347548188751054268855300032478946476771431239151224800599929334416336065501386401450082780335722794515690971497502613119572605817819552846527036546800537452289962724116693022145664895065164186149833381974711600883327545123450122871971147302803073168983194388483827612055508266675878000878704246427841571794203240860215904549106530827131321402986180686089988633663739895139703559277019485461300212536846392544643856547607693366163791073763613838650184830875471738819956988911232403680763538916523775946728744960700817837151009669959241771461828047237260652537999129706829026048644442382341659691354643777810685943794926724515177321588244622116761114437739062004307104809741473960320754391887090844792526818961361312525830813289625445446431006461614897542816310770530366027706620966710971302554250983856296326042877578393995936830966330121011023900771927544717308945270603003240491691582170655916068070299212775007007180642514491240683074322777466526311499038647494498958726552375703949025613581066057855914800452584676237324862652919677100794473544783767328116363683916232643305981108946584370136687680668513220986830334466559838675733251950957245363613555859166098333726747579578737108347468499788346863018949663090997343939722423728565150731904274991351758061984583686249604065190348701862100224540321458544505168762649721386396468470057214783398736671717396949470947144027564716691534211846484691159013743205946343392199060961934465585840504118658278259779176754619177881927974683715200904211173892348595705524133218532728842339022816589017030860412747268194119467995240317896652020788662352479062028798111476211026162931646331922436676147120176103822178896677027362105945881244022826309114741074153524778315631803764646218586008619208323019507649815447223742128923475440793222384737290710283058993569284582796883626876039322601426216582605546686716715899581560629783061377852300043501680962239297430641026137984499910611498101129283919001994113048080949417059796449142545229641929989790698829010500810423228951989177902086882705382456454774687870987794738664136069654111052411350437639220396624238185155174408411494365807533238101860278776145868150216899122134568525904720377152006750228490222841393130666240745787201792592099574555788357748586243315202559661294204378174005323357397945854776262682674492222675817098722011861361269448288373237737972838327420446433915392392321238336945148226195573399378180787337558640972547120057887681636865843057182665614564603679565454837134310149012199299509594306425243993734453753827919388978063634126290344271051478872910205637339731078517236208743990350781129695868905657930818286886397292215457609560914575585409287743802701316974649943947040533653789851676410734127537694671088032138525453048880863697982564706962122733684890529235111471926693197503130914929356959132171243428317024661502700516152705590667253467025314333878253528769697682055450843761869177348628138660332118199780592172244788517765755501268795290350016474067066049938523074359893037610802691526662446991672737148921615508402493333644057259594277773657332934385145762628253537003230264227394639319583276331595684887228181704963969708913042534581832255774800059658979186514875429856422781755636950327535696170559067983249266753145736369584854050935755734503817808829316179524524130925343428165879981725338976792826617088501114906719539611976540544482525462564328493725912002430648568682710320408138128369938225802287320549608048403095778826237889880104509429705468889133202404782170414375145283094008142683032448606436987873997463618937421096504412932243158374604132984463751912750577471346880331761642121097958196137284430510889730676388971235390413076474759220384726525076664201218836719451179555122351107338502513659779263504787930250732241183145266169132969958658451821466318467125155271028889523868769591641553746482385382381065058067838619496338924525156807802082999947261492271159324015237963705497401861779375371445643212099173747598612702788258849983487302824923374080084580441920276422815948116103366387039607029172425710308360872886732640594263788510395993869731132681542689250802713504720110454537058977989477723274603594779468611833140604539987297750968748061825926669668061217336972129047532485793473073869504755984535571932243068450711421816055851631621103950488109376870240459927121399102255875776325515862165770795154537038057464827366853709097058047163843112126036460096542943389530099233788215013098445515670638404826772388818963733582860253298959604418717530535503864364731283333736845282663275748381234276284718680260848620030406328330436783358364213575553294946836034797230891265066583461963303246950447561201748320631372124234493554102764752530716545636651874232998671054500442476539198227545316788409510712388991246997782240253720007036813143430800298253186192739438601554785276145742900642807678361572293342494570213314751147517799170331933477983794799035985918049120014417312414737343570858744412049513290376075312611121650709227757638159161178502510814178161921213990862884403490645740399756406826482227517801232598093048090656193115386550580623830739990508404419009620089436682801187330973213947147322634890751139565238106083663701528724681914481216508866641234907019130930907617424156542680212807442482256926039376132446480708426867423167800961670380930756657759334466620497523939586755314370370905477242648649140321685653469234840045818761983214969193080543381181696486601631972247692534728309187964732473472337994994736188072321418938645944823814685731952849483356770740538470101990113578521293347573427379204039973148251375854362460055177266492355152033286009991885645957973205272116744803692818783911290777314575863417667394659424915036919111475798613714600657038752941902927089917468444599858928085072408842320018014267445679201963869847921814493338887039649493594739918455234502692315024893718698643987450472516835962456254517550654783439353649079937605259635924688300065863772801356673055052264683218309703288347181989930339365816383469535971982280780455774654464984630818130016210513698600749921724433624602358407591205615723582444193644189008778367593392285045320814740678483344403731017743246752177039112542586040643106254804675891843822455484663167844350319208533022454419701582226175236616657890722798788680961040953034314689363650908796323837661431560874776214993932700314003333806382701888841069882350156437697397261550650361317402091279177443671797789102474082758080973409928627575624227943977799316588960491032930532499136154072329322936780941732626707375103428677400470094800569611619570342640772971260622378718908139161852177571282386271423727378489733425271957144151735228741478982225817903742252773629605618676196994935300745544682192372895971431080412831217010636484886590662172039918151254689825409425380507217484662584353830002770102332219180377648311691028286729667379866835440484202456842894172240913312304349785115153749747116467136169361753230508413331542044094359125917390592226699593369487392489961426995250879007268655842595241541516400091940940513264866640404166607528734480002913231549970590058351871059564202435155690545056908620353502823363387380808481227920218421051005208636078699025365794530478887833723921609299852228697351360077957323976743560978722426782375626484260113725602149972393495743480734230905010653079861308424466230944087321805940908386680464065400642476079153969048255912750580955021440550608023251760153236731414708165744271090995056840348059435607061678750940544580532382548942286196618365972389962581059674399105360849928660020601

/-- A permutation of `0, ..., 1632` listing the word indices in increasing
order of key, packed 11 bits per entry. -/
def SIGMA_BLOB : Nat := 15343569261620046751469675850014389945977790883741718267920344020828962540436140085767490928461453888788783342826589454565283591966525239086623714199613263768437590399391617534565792895936945542972219578426881593435084138076619146652532903894259071526589841413532278757715867736161232967315728770078124859963620037488030468242681147454806936229089516043292065487454666296884132093129062979020171826856205727485079389444473710248634671529829464301192342967555527654261364871774155360789544445234030796639278800143508876184102977921365564398156076010789199204660392514431512722721757597727741439465451423931652707964808026525789159985501989022277019547626289735156387267046851273956003989366232511926450661838734878960822601446777770452977096811736129497248025604356010880662186628642520392476404096575081402571088176520658878233954032016178362273159890497334226946366603579309793973868835522355073351082152693391304591524244174129576308123400620226648703314162019796129101727377840690881932034082910063054756169480883978754690788827532707162394760519856874488062549127206919168450815185653824664060938119166231626684597203094368751436607429244754943539977012023132625187321719715947423284771367090633294433721495927202786850884506527433204527159663349856821859405854362788111719044071928005296109299923143890760404854053027637422265512650841403358854924652391636536835851856134088883009250449809740861127283032582021951829041216284500104956054545044423680232185281607394162006007983075841491543696275115580425802817558903134918637419587477062489400453447780329772264037926349175561088788564500505781012752547196680494847683276698807260922789204539077369064496592147506403326733910167946808411447946957806908004710123029580290309964046131896444503753585029338584900585469558161470902854757675973521774067818491517725372569505974418412712340020181128472678543666201700242967040090565120282040221373684044861632011006388883632680788472669211043226909908339284077637181196183564666525167547038837140413099720614611494608410769321783961342585470558562998660684363126246805414160761696836224482208362588682552917395356886483867153246256737844200157869665215277973073056278872301630782089799852875100287264403856774768087799424790286842423379547692908591481414290065353948073807968399416085694072172828596974423460309240086994424553424805520822831160488222588120863044707520880245144011680084527299811973856017751966174104905291970459768003689054392850016940596213627034996881796949635831068000605881433492535917150549585674863499541529221658070673913243722546919489968373549648275154571261074538735464153989438604823804820697635034196862745053268436185296097416951981176460337057722388273177420199179305248242546826921220000583979524785338600206146229127761989725146046482899640421736341037759898133936819516499456369920781022150189365334502112740650855942629762607810414130537067899777650400555667357625011551578840913161143286055033884110602418682454184547206463724894555919391013019285135132147389722394452619906639387432779727929835262713072559600275276366113501403407977549100801702627459739282757945229940469841399780087622144005095883021114585954976190934269445088884728850170783869978664289781702466377053477761111863469726723672920942632921606611614906797348171932761260369868089310215735615208325322385508239166664208962513771523138168345054906365423406987718404827582827524323670791182390839565613669724520622291703150523971927247677259065807428911768077929649148268891397154953935041788679893772688618409616392146866526666541885203437246970863564816753360930586612250191989752504200194335482760266278377747191963893936926062303431172420264074722417455209528307737509828704121041242560832820566528256782750145833584688853097508370827352300976985557765064930853304292832396054570487757719277640928420953170846742057924054685550770432197162739204519307439391096690453620968086363021372603933877135812781751972645595130939661680399286212498133017404290131996878774896293061470497521053655625134371412289919830118805017261492066746141143250376034127816562511722828081653504469645300783673239546103116532640878426982335068261318338026913129615152670115786858953778928877513535540711935177415837706636346571088789491864376823981025412901226367767824574680756005803784838979947287887431988656336740888524850226013662417897376614401781110559962323343168184328302616252307789005340522890987604310217922745999465736239295711751878579042362451450330921491972544418396924643376265065960873636346669915115994926366424234505190906820231870063135694657904382714221348540208294103401236854151236215708076400166711758992458258200117062863596663159565133973393586676472804574037879988763179092123737489290926005465755413514031183497122901342715575319414382768673183557241213279325784608054903503941002099519128256958226606455539806072532429012886733267038442199127436698722181530040404995527796262029889206086309651106160105355638863817885952260648594389976437356750638754922729185514510102956177934704059626718931551747238183489323985340554586401608405976797152191614549725367507088375648688024780544462507137458615523157265190079015417568657614272121846255086000116248435672601570324748648553427123962668602355387844742786055936077247178638819317975018589204604429942308647018053124913625311123097188901460254213521521320813067522239267360497245875752050397728526510005996205654743596360586643859372211935484029313408602

/-- The key of word `i`, read from the packed certificate. -/
def keyAt (i : Nat) : Nat := (KEYS_BLOB >>> (60 * i)) &&& 1152921504606846975

/-- Entry `j` of the sorting permutation, read from the packed certificate. -/
def sigmaAt (j : Nat) : Nat := (SIGMA_BLOB >>> (11 * j)) &&& 2047

/-- Strict increase of adjacent elements, as a short-circuit boolean fold
(kept tail-recursive so that kernel reduction runs in constant stack). -/
def chainLt : List Nat → Bool
  | a :: b :: l => decide (a < b) && chainLt (b :: l)
  | _ => true

/-! ### Distinctness of the dictionary words

The 1633 words are proved pairwise distinct from three linear-time
certificate checks: the word keys agree with the packed `KEYS_BLOB`, the
packed permutation `SIGMA_BLOB` lists all indices below 1633, and the keys
read off in permutation order strictly increase. -/

theorem mnwords_length : MN_WORDS.length = 1633 := by decide

theorem mnwords_keys_check :
    ((MN_WORDS.zip ((List.range 1633).map keyAt)).all (fun p => wkey p.1 == p.2)) = true := by
  decide

theorem sorted_keys_check :
    chainLt ((List.range 1633).map (fun j => keyAt (sigmaAt j))) = true := by decide

theorem sigma_range_check :
    ((List.range 1633).all (fun j => decide (sigmaAt j < 1633))) = true := by decide

theorem map_wkey_eq_of_zip_all : ∀ (l : List (List Nat)) (l2 : List Nat),
    (l.zip l2).all (fun p => wkey p.1 == p.2) = true → l.length = l2.length →
    l.map wkey = l2
  | [], [], _, _ => rfl
  | [], _ :: _, _, hlen => by simp at hlen
  | _ :: _, [], _, hlen => by simp at hlen
  | a :: l, b :: l2, h, hlen => by
    simp only [List.zip_cons_cons, List.all_cons, Bool.and_eq_true, beq_iff_eq] at h
    simp only [List.length_cons, Nat.add_right_cancel_iff] at hlen
    simp only [List.map_cons, h.1, List.cons.injEq, true_and]
    exact map_wkey_eq_of_zip_all l l2 h.2 hlen

theorem chainLt_chain' : ∀ (l : List Nat), chainLt l = true →
    List.Chain' (fun a b : Nat => a < b) l
  | [], _ => List.chain'_nil
  | [_], _ => List.chain'_singleton _
  | a :: b :: l, h => by
    simp only [chainLt, Bool.and_eq_true, decide_eq_true_eq] at h
    exact List.Chain'.cons h.1 (chainLt_chain' (b :: l) h.2)

theorem sigmaAt_lt : ∀ j < 1633, sigmaAt j < 1633 := by
  intro j hj
  have h := sigma_range_check
  rw [List.all_eq_true] at h
  simpa using h j (List.mem_range.mpr hj)

theorem keyAt_injOn : ∀ i < 1633, ∀ j < 1633, keyAt i = keyAt j → i = j := by
  have hp : List.Pairwise (fun a b : Nat => a < b)
      ((List.range 1633).map (fun j => keyAt (sigmaAt j))) :=
    List.chain'_iff_pairwise.mp (chainLt_chain' _ sorted_keys_check)
  have hmapmap : ((List.range 1633).map sigmaAt).map keyAt
      = (List.range 1633).map (fun j => keyAt (sigmaAt j)) := by
    rw [List.map_map]; rfl
  have hσpair : List.Pairwise (fun a b : Nat => keyAt a < keyAt b)
      ((List.range 1633).map sigmaAt) := by
    rw [← hmapmap] at hp
    exact List.pairwise_map.mp hp
  have hσnodup : ((List.range 1633).map sigmaAt).Nodup :=
    hσpair.imp (fun {a b} h => by intro e; rw [e] at h; exact lt_irrefl _ h)
  have hσsub : ((List.range 1633).map sigmaAt) ⊆ List.range 1633 := by
    intro x hx
    rcases List.mem_map.mp hx with ⟨j, hj, rfl⟩
    exact List.mem_range.mpr (sigmaAt_lt j (List.mem_range.mp hj))
  have hperm : ((List.range 1633).map sigmaAt).Perm (List.range 1633) :=
    (hσnodup.subperm hσsub).perm_of_length_le (by simp)
  have hsurj : ∀ i < 1633, ∃ j < 1633, sigmaAt j = i := by
    intro i hi
    have : i ∈ (List.range 1633).map sigmaAt :=
      hperm.mem_iff.mpr (List.mem_range.mpr hi)
    rcases List.mem_map.mp this with ⟨j, hj, hji⟩
    exact ⟨j, List.mem_range.mp hj, hji⟩
  have hksnodup : ((List.range 1633).map (fun j => keyAt (sigmaAt j))).Nodup :=
    hp.imp (fun {a b} h => by intro e; rw [e] at h; exact lt_irrefl _ h)
  intro i hi j hj hk
  rcases hsurj i hi with ⟨a, ha, rfl⟩
  rcases hsurj j hj with ⟨b, hb, rfl⟩
  have hab : a = b := by
    have hla : a < ((List.range 1633).map (fun j => keyAt (sigmaAt j))).length := by
      simpa using ha
    have hlb : b < ((List.range 1633).map (fun j => keyAt (sigmaAt j))).length := by
      simpa using hb
    have h2 := @List.Nodup.getElem_inj_iff _ _ hksnodup a hla b hlb
    simp only [List.getElem_map, List.getElem_range] at h2
    exact h2.mp hk
  rw [hab]

theorem mnwords_map_wkey : MN_WORDS.map wkey = (List.range 1633).map keyAt :=
  map_wkey_eq_of_zip_all _ _ mnwords_keys_check (by simp [mnwords_length])

theorem mnwords_nodup : MN_WORDS.Nodup := by
  apply List.Nodup.of_map wkey
  rw [mnwords_map_wkey]
  exact List.Nodup.map_on
    (fun x hx y hy h => keyAt_injOn x (List.mem_range.mp hx) y (List.mem_range.mp hy) h)
    (List.nodup_range 1633)

theorem find?_of_unique {L : List (Nat × List Nat)} {i : Nat} {w : List Nat}
    (hmem : (i, w) ∈ L) (huniq : ∀ p ∈ L, p.2 = w → p = (i, w)) :
    L.find? (fun p => p.2 == w) = some (i, w) := by
  induction L with
  | nil => cases hmem
  | cons a L ih =>
    by_cases h : a.2 = w
    · have ha : a = (i, w) := huniq a (List.mem_cons_self a L) h
      subst ha
      exact List.find?_cons_of_pos _ (by simp)
    · rw [List.find?_cons_of_neg _ (by simpa using h)]
      rcases List.mem_cons.mp hmem with he | hm
      · exact absurd (by rw [← he]) h
      · exact ih hm (fun p hp => huniq p (List.mem_cons_of_mem a hp))

/-- Looking up the `i`th dictionary word in the reverse index returns `i`:
the hash map is a left inverse of the array. -/
theorem mn_word_index_getD : ∀ i < 1633, MN_WORD_INDEX (MN_WORDS.getD i []) = some i := by
  intro i hi
  have hlen : i < MN_WORDS.length := by rw [mnwords_length]; exact hi
  have hgd : MN_WORDS.getD i [] = MN_WORDS[i] := by
    simp [List.getD_eq_getElem?_getD, List.getElem?_eq_getElem hlen]
  have hel : i < MN_WORDS.enum.length := by simpa using hlen
  have hmem : (i, MN_WORDS[i]) ∈ MN_WORDS.enum.reverse := by
    rw [List.mem_reverse]
    have he : MN_WORDS.enum[i] = (i, MN_WORDS[i]) := List.getElem_enum _ _ hel
    rw [← he]
    exact List.getElem_mem hel
  have huniq : ∀ p ∈ MN_WORDS.enum.reverse, p.2 = MN_WORDS[i] → p = (i, MN_WORDS[i]) := by
    intro p hp hpw
    rcases List.mem_iff_getElem.mp (List.mem_reverse.mp hp) with ⟨k, hk, hkp⟩
    have hkl : k < MN_WORDS.length := by simpa using hk
    have hpk : p = (k, MN_WORDS[k]) := by
      rw [← hkp]
      exact List.getElem_enum _ _ hk
    have hww : MN_WORDS[k] = MN_WORDS[i] := by
      rw [hpk] at hpw
      exact hpw
    have hki : k = i := (@List.Nodup.getElem_inj_iff _ _ mnwords_nodup k hkl i hlen).mp hww
    subst hki
    exact hpk
  rw [hgd]
  unfold MN_WORD_INDEX
  rw [find?_of_unique hmem huniq]
  rfl

/-! ### Tokenizer lemmas -/

theorem splitNonAlpha_ne_nil : ∀ s, splitNonAlpha s ≠ [] := by
  intro s
  match s with
  | [] => simp [splitNonAlpha]
  | c :: rest =>
    simp only [splitNonAlpha]
    split
    · split <;> simp
    · simp

theorem splitNonAlpha_sep (c : Nat) (s : List Nat) (h : is_ascii_alpha c = false) :
    splitNonAlpha (c :: s) = [] :: splitNonAlpha s := by
  simp [splitNonAlpha, h]

theorem splitNonAlpha_alpha_append (w s : List Nat)
    (hw : ∀ b ∈ w, is_ascii_alpha b = true) :
    ∃ t ts, splitNonAlpha s = t :: ts ∧ splitNonAlpha (w ++ s) = (w ++ t) :: ts := by
  induction w with
  | nil =>
    rcases hne : splitNonAlpha s with _ | ⟨t, ts⟩
    · exact absurd hne (splitNonAlpha_ne_nil s)
    · exact ⟨t, ts, rfl, by simpa using hne⟩
  | cons c w ih =>
    have hc : is_ascii_alpha c = true := hw c (by simp)
    obtain ⟨t, ts, h1, h2⟩ := ih (fun b hb => hw b (by simp [hb]))
    refine ⟨t, ts, h1, ?_⟩
    simp only [List.cons_append, splitNonAlpha, hc, if_true]
    rw [List.append_eq, h2]

theorem tokens_sep (c : Nat) (s : List Nat) (h : is_ascii_alpha c = false) :
    tokens (c :: s) = tokens s := by
  simp [tokens, splitNonAlpha_sep c s h]

theorem tokens_word_append (w : List Nat) (c : Nat) (s : List Nat)
    (hw : ∀ b ∈ w, is_ascii_alpha b = true) (hne : w ≠ []) (hc : is_ascii_alpha c = false) :
    tokens (w ++ c :: s) = w :: tokens s := by
  obtain ⟨t, ts, h1, h2⟩ := splitNonAlpha_alpha_append w (c :: s) hw
  rw [splitNonAlpha_sep c s hc] at h1
  cases h1
  rw [tokens, h2, List.append_nil]
  simp [tokens, List.filter_cons, hne]

theorem tokens_word (w : List Nat)
    (hw : ∀ b ∈ w, is_ascii_alpha b = true) (hne : w ≠ []) : tokens w = [w] := by
  obtain ⟨t, ts, h1, h2⟩ := splitNonAlpha_alpha_append w [] hw
  have h0 : splitNonAlpha [] = [[]] := rfl
  rw [h0] at h1
  cases h1
  rw [tokens, ← List.append_nil w, h2]
  simp [List.filter_cons, hne]

/-! ### Little-endian chunk arithmetic -/

theorem lor_eq_add_of_lt {x b k : Nat} (hx : x < 2 ^ k) : x ||| (b * 2 ^ k) = x + b * 2 ^ k := by
  have h := Nat.mul_add_lt_is_or hx b
  rw [Nat.lor_comm, Nat.mul_comm (2 ^ k) b] at h
  omega

theorem chunkAccum_eq : ∀ (bs : List Nat) (i x : Nat), (∀ b ∈ bs, b < 256) →
    bs.length + i ≤ 4 → x < 2 ^ (8 * i) →
    chunkAccum bs i x = x + 2 ^ (8 * i) * leVal bs
  | [], i, x, _, _, _ => by simp [chunkAccum, leVal]
  | b :: bs, i, x, hb, hlen, hx => by
    have hb0 : b < 256 := hb b (by simp)
    have hi3 : i ≤ 3 := by simp [List.length_cons] at hlen; omega
    have hpow : (2:Nat) ^ (8 * i) ≤ 2 ^ 24 :=
      Nat.pow_le_pow_right (by norm_num) (by omega)
    have hpos : 0 < (2:Nat) ^ (8 * i) := Nat.pos_pow_of_pos _ (by norm_num)
    have e1 : (2:Nat) ^ (8 * (i + 1)) = 2 ^ (8 * i) * 256 := by
      rw [Nat.mul_add, pow_add]
      norm_num
    have hshift : b <<< (8 * i) = b * 2 ^ (8 * i) := Nat.shiftLeft_eq b (8 * i)
    have hsmall : b * 2 ^ (8 * i) < 4294967296 := by
      have : b * 2 ^ (8 * i) ≤ 255 * 2 ^ 24 := by
        apply Nat.mul_le_mul (by omega) hpow
      omega
    have hwrap : u32 (b <<< (8 * i)) = b * 2 ^ (8 * i) := by
      rw [hshift, u32, Nat.mod_eq_of_lt hsmall]
    have hor : x ||| (b * 2 ^ (8 * i)) = x + b * 2 ^ (8 * i) := lor_eq_add_of_lt hx
    rw [chunkAccum, hwrap, hor]
    have hx2 : x + b * 2 ^ (8 * i) < 2 ^ (8 * (i + 1)) := by
      rw [e1]
      have : b * 2 ^ (8 * i) ≤ 255 * 2 ^ (8 * i) :=
        Nat.mul_le_mul_right _ (by omega)
      omega
    rw [chunkAccum_eq bs (i + 1) (x + b * 2 ^ (8 * i))
      (fun c hc => hb c (by simp [hc])) (by simp at hlen ⊢; omega) hx2]
    rw [leVal, e1]
    ring

theorem chunkAccum_leVal (bs : List Nat) (h : ∀ b ∈ bs, b < 256) (hlen : bs.length ≤ 4) :
    chunkAccum bs 0 0 = leVal bs := by
  have := chunkAccum_eq bs 0 0 h (by omega) (by norm_num)
  simpa using this

theorem leVal_lt : ∀ bs : List Nat, (∀ b ∈ bs, b < 256) → leVal bs < 2 ^ (8 * bs.length)
  | [], _ => by simp [leVal]
  | b :: bs, h => by
    have hb : b < 256 := h b (by simp)
    have ih := leVal_lt bs (fun c hc => h c (by simp [hc]))
    have e1 : (2:Nat) ^ (8 * (b :: bs).length) = 2 ^ (8 * bs.length) * 256 := by
      simp only [List.length_cons, Nat.mul_add, pow_add]
      norm_num
    rw [leVal, e1]
    have : 256 * leVal bs ≤ 256 * (2 ^ (8 * bs.length) - 1) :=
      Nat.mul_le_mul_left _ (by omega)
    have hpos : 0 < (2:Nat) ^ (8 * bs.length) := Nat.pos_pow_of_pos _ (by norm_num)
    omega

theorem le4_leVal : ∀ bs : List Nat, (∀ b ∈ bs, b < 256) → bs.length = 4 →
    le4 (leVal bs) = bs
  | [a, b, c, d], h, _ => by
    have ha : a < 256 := h a (by simp)
    have hb : b < 256 := h b (by simp)
    have hc : c < 256 := h c (by simp)
    have hd : d < 256 := h d (by simp)
    simp only [le4, leVal, List.cons.injEq, and_true]
    refine ⟨?_, ?_, ?_, ?_⟩ <;> omega

theorem le4_take : ∀ bs : List Nat, (∀ b ∈ bs, b < 256) → bs.length ≤ 3 →
    (le4 (leVal bs)).take bs.length = bs
  | [], _, _ => by simp
  | [a], h, _ => by
    have ha : a < 256 := h a (by simp)
    simp only [le4, leVal]
    simp
    omega
  | [a, b], h, _ => by
    have ha : a < 256 := h a (by simp)
    have hb : b < 256 := h b (by simp)
    simp only [le4, leVal]
    simp
    constructor <;> omega
  | [a, b, c], h, _ => by
    have ha : a < 256 := h a (by simp)
    have hb : b < 256 := h b (by simp)
    have hc : c < 256 := h c (by simp)
    simp only [le4, leVal]
    simp
    refine ⟨by omega, by omega, by omega⟩

/-! ### Dictionary word facts -/

theorem mnwords_all_alpha :
    MN_WORDS.all (fun w => !w.isEmpty && w.all is_ascii_alpha) = true := by decide

theorem mem_mnwords_spec : ∀ w ∈ MN_WORDS, w ≠ [] ∧ ∀ b ∈ w, is_ascii_alpha b = true := by
  intro w hw
  have h := mnwords_all_alpha
  rw [List.all_eq_true] at h
  have h2 := h w hw
  simp only [Bool.and_eq_true, List.all_eq_true, Bool.not_eq_true'] at h2
  refine ⟨?_, fun b hb => h2.2 b hb⟩
  intro he
  rw [he] at h2
  simp at h2

theorem mnwords_getD_eq : ∀ i, ∀ h : i < MN_WORDS.length, MN_WORDS.getD i [] = MN_WORDS[i] := by
  intro i h
  simp [List.getD_eq_getElem?_getD, List.getElem?_eq_getElem h]

theorem mnwords_getD_mem : ∀ i < 1633, MN_WORDS.getD i [] ∈ MN_WORDS := by
  intro i hi
  have hlen : i < MN_WORDS.length := by rw [mnwords_length]; exact hi
  rw [mnwords_getD_eq i hlen]
  exact List.getElem_mem hlen

/-! ### `u32` arithmetic that stays in range -/

theorem u32_id {n : Nat} (h : n < 4294967296) : u32 n = n := Nat.mod_eq_of_lt h

theorem u32add_id {a b : Nat} (h : a + b < 4294967296) : u32add a b = a + b := u32_id h

theorem u32mul_id {a b : Nat} (h : a * b < 4294967296) : u32mul a b = a * b := u32_id h

/-! ### Single decoder steps, characterized per slot -/

theorem decode_step0 (idx x off : Nat) (hoff : off % 4 = 0) (hidx : idx < 1626) :
    mn_decode_word_index idx x off = .ok (idx, off + 1) := by
  simp only [mn_decode_word_index, MN_BASE, hoff]
  rw [if_neg (by omega)]

theorem decode_step1 (idx x off : Nat) (hoff : off % 4 = 1) (hidx : idx < 1626) :
    mn_decode_word_index idx x off = .ok (u32add x (u32mul idx 1626), off + 1) := by
  simp only [mn_decode_word_index, MN_BASE, hoff]
  rw [if_neg (by omega)]

theorem decode_step2_base (idx x off : Nat) (hoff : off % 4 = 2) (hidx : idx ≤ 1624)
    (hx : idx = 1624 → x ≤ 1312671) :
    mn_decode_word_index idx x off
      = .ok (u32add x (u32mul (u32mul idx 1626) 1626), off + 2) := by
  simp only [mn_decode_word_index, MN_BASE, hoff]
  rw [if_neg (by omega), if_neg (by omega), if_neg ?hc]
  case hc =>
    intro hor
    rcases hor with h1 | ⟨h1, h2⟩
    · omega
    · have := hx h1
      omega

theorem decode_step2_rem (idx x off : Nat) (hoff : off % 4 = 2) (hidx : 1626 ≤ idx) :
    mn_decode_word_index idx x off
      = .ok (u32add x (u32mul (u32mul (idx - 1626) 1626) 1626), off + 1) := by
  simp only [mn_decode_word_index, MN_BASE, hoff]
  rw [if_neg (by omega), if_pos (by omega)]

theorem decode_step3_base (idx x off : Nat) (hoff : off % 4 = 3) (hidx : idx < 1626) :
    mn_decode_word_index idx x off = .error .dataPastRemainder := by
  simp only [mn_decode_word_index, MN_BASE, hoff]
  rw [if_neg (by omega)]

theorem decode_step3_rem (idx x off : Nat) (hoff : off % 4 = 3) (hidx : 1626 ≤ idx) :
    mn_decode_word_index idx x off = .error .unexpectedRemainderWord := by
  simp only [mn_decode_word_index, MN_BASE, hoff]
  rw [if_pos (by omega)]

/-! ### Encoder output characterization (default template) -/

/-- The words `n, n+1, ..., n+k-1` of the encoding of `src`. -/
def wordsFrom (src : List Nat) : Nat → Nat → List (List Nat)
  | _, 0 => []
  | n, k + 1 => mn_encode_word src n :: wordsFrom src (n + 1) k

/-- Output shape of the default template `x-x-x--`: words in triples joined
by `-`, with `--` before each following triple, and no trailing separator. -/
def joinDefault : List (List Nat) → List Nat
  | [] => []
  | [w1] => w1
  | [w1, w2] => w1 ++ (45 :: w2)
  | [w1, w2, w3] => w1 ++ (45 :: (w2 ++ (45 :: w3)))
  | w1 :: w2 :: w3 :: w4 :: ws =>
      w1 ++ (45 :: (w2 ++ (45 :: (w3 ++ (45 :: 45 :: joinDefault (w4 :: ws))))))

theorem wordsFrom_length (src : List Nat) : ∀ k n, (wordsFrom src n k).length = k
  | 0, _ => rfl
  | k + 1, n => by simp [wordsFrom, wordsFrom_length src k (n + 1)]

theorem tokens_joinDefault : ∀ ws : List (List Nat),
    (∀ w ∈ ws, w ≠ [] ∧ ∀ b ∈ w, is_ascii_alpha b = true) →
    tokens (joinDefault ws) = ws
  | [], _ => rfl
  | [w1], h => by
    simp only [joinDefault]
    exact tokens_word w1 (h w1 (by simp)).2 (h w1 (by simp)).1
  | [w1, w2], h => by
    simp only [joinDefault]
    rw [tokens_word_append w1 45 w2 (h w1 (by simp)).2 (h w1 (by simp)).1 (by decide)]
    rw [tokens_word w2 (h w2 (by simp)).2 (h w2 (by simp)).1]
  | [w1, w2, w3], h => by
    simp only [joinDefault]
    rw [tokens_word_append w1 45 _ (h w1 (by simp)).2 (h w1 (by simp)).1 (by decide)]
    rw [tokens_word_append w2 45 _ (h w2 (by simp)).2 (h w2 (by simp)).1 (by decide)]
    rw [tokens_word w3 (h w3 (by simp)).2 (h w3 (by simp)).1]
  | w1 :: w2 :: w3 :: w4 :: ws, h => by
    simp only [joinDefault]
    rw [tokens_word_append w1 45 _ (h w1 (by simp)).2 (h w1 (by simp)).1 (by decide)]
    rw [tokens_word_append w2 45 _ (h w2 (by simp)).2 (h w2 (by simp)).1 (by decide)]
    rw [tokens_word_append w3 45 _ (h w3 (by simp)).2 (h w3 (by simp)).1 (by decide)]
    rw [tokens_sep 45 _ (by decide)]
    rw [tokens_joinDefault (w4 :: ws)
      (fun w hw => h w (List.mem_cons_of_mem _ (List.mem_cons_of_mem _ (List.mem_cons_of_mem _ hw))))]

theorem prependE_ok {p : List Nat} {e : EncOut} {out : List Nat} :
    prependE p e = .ok out ↔ ∃ o, e = .ok o ∧ out = p ++ o := by
  cases e <;> simp [prependE]
  exact eq_comm

theorem encodeGo_done (src fmt : List Nat) (numW fuel n : Nat) (cur : List Nat)
    (hn : numW ≤ n) : encodeGo src fmt numW (fuel + 1) n cur = .ok [] := by
  rw [encodeGo, if_pos hn]

theorem encodeGo_step_emit (src fmt : List Nat) (numW fuel n : Nat)
    (cur sep rest cur2 : List Nat) (c : Nat)
    (hn : n < numW) (hsp : skipNonLetters cur = (sep, c :: rest))
    (hsl : skipLetters (c :: rest) = some cur2) :
    encodeGo src fmt numW (fuel + 1) n cur
      = prependE (sep ++ mn_encode_word src n) (encodeGo src fmt numW fuel (n + 1) cur2) := by
  rw [encodeGo, if_neg (by omega)]
  simp only [hsp, hsl]

theorem encodeGo_step_wrap (src fmt : List Nat) (numW fuel n : Nat)
    (cur sep : List Nat)
    (hn : n < numW) (hsp : skipNonLetters cur = (sep, [])) :
    encodeGo src fmt numW (fuel + 1) n cur
      = prependE sep (encodeGo src fmt numW fuel n fmt) := by
  rw [encodeGo, if_neg (by omega)]
  simp only [hsp]

theorem skipF0 : skipNonLetters MN_FDEFAULT = ([], 120 :: [45, 120, 45, 120, 45, 45]) := by
  decide

theorem skipL0 : skipLetters (120 :: [45, 120, 45, 120, 45, 45])
    = some [45, 120, 45, 120, 45, 45] := by decide

theorem skipF1 : skipNonLetters [45, 120, 45, 120, 45, 45]
    = ([45], 120 :: [45, 120, 45, 45]) := by decide

theorem skipL1 : skipLetters (120 :: [45, 120, 45, 45]) = some [45, 120, 45, 45] := by decide

theorem skipF2 : skipNonLetters [45, 120, 45, 45] = ([45], 120 :: [45, 45]) := by decide

theorem skipL2 : skipLetters (120 :: [45, 45]) = some [45, 45] := by decide

theorem skipF3 : skipNonLetters [45, 45] = ([45, 45], []) := by decide

theorem encodeGo_default : ∀ (k : Nat) (src : List Nat) (n fuel : Nat),
    2 * k + 2 ≤ fuel →
    encodeGo src MN_FDEFAULT (n + k) fuel n MN_FDEFAULT
      = .ok (joinDefault (wordsFrom src n k)) := by
  intro k
  induction k using Nat.strong_induction_on with
  | _ k ih =>
    intro src n fuel hfuel
    match k, hfuel with
    | 0, hfuel =>
      obtain ⟨f, rfl⟩ : ∃ f, fuel = f + 1 := ⟨fuel - 1, by omega⟩
      rw [encodeGo_done src _ _ _ _ _ (by omega)]
      rfl
    | 1, hfuel =>
      obtain ⟨f, rfl⟩ : ∃ f, fuel = f + 2 := ⟨fuel - 2, by omega⟩
      rw [encodeGo_step_emit src _ _ (f + 1) n _ _ _ _ _ (by omega) skipF0 skipL0]
      rw [encodeGo_done src _ _ f _ _ (by omega)]
      simp [prependE, wordsFrom, joinDefault]
    | 2, hfuel =>
      obtain ⟨f, rfl⟩ : ∃ f, fuel = f + 3 := ⟨fuel - 3, by omega⟩
      rw [encodeGo_step_emit src _ _ (f + 2) n _ _ _ _ _ (by omega) skipF0 skipL0]
      rw [encodeGo_step_emit src _ _ (f + 1) (n + 1) _ _ _ _ _ (by omega) skipF1 skipL1]
      rw [encodeGo_done src _ _ f _ _ (by omega)]
      simp [prependE, wordsFrom, joinDefault]
    | 3, hfuel =>
      obtain ⟨f, rfl⟩ : ∃ f, fuel = f + 4 := ⟨fuel - 4, by omega⟩
      rw [encodeGo_step_emit src _ _ (f + 3) n _ _ _ _ _ (by omega) skipF0 skipL0]
      rw [encodeGo_step_emit src _ _ (f + 2) (n + 1) _ _ _ _ _ (by omega) skipF1 skipL1]
      rw [encodeGo_step_emit src _ _ (f + 1) (n + 2) _ _ _ _ _ (by omega) skipF2 skipL2]
      rw [encodeGo_done src _ _ f _ _ (by omega)]
      simp [prependE, wordsFrom, joinDefault]
    | (k2 + 4), hfuel =>
      obtain ⟨f, rfl⟩ : ∃ f, fuel = f + 4 := ⟨fuel - 4, by omega⟩
      rw [show n + (k2 + 4) = (n + 3) + (k2 + 1) by omega]
      rw [encodeGo_step_emit src _ _ (f + 3) n _ _ _ _ _ (by omega) skipF0 skipL0]
      rw [encodeGo_step_emit src _ _ (f + 2) (n + 1) _ _ _ _ _ (by omega) skipF1 skipL1]
      rw [encodeGo_step_emit src _ _ (f + 1) (n + 2) _ _ _ _ _ (by omega) skipF2 skipL2]
      rw [encodeGo_step_wrap src _ _ f (n + 3) _ _ (by omega) skipF3]
      rw [ih (k2 + 1) (by omega) src (n + 3) f (by omega)]
      simp [prependE, wordsFrom, joinDefault]

/-! ### Facts about `mn_encode_word` -/

theorem mn_encode_word_mem (src : List Nat) (n : Nat) (h : ∀ b ∈ src, b < 256) :
    mn_encode_word src n ∈ MN_WORDS := by
  simp only [mn_encode_word, MN_BASE]
  have hbytes : ∀ b ∈ (src.drop (n / 3 * 4)).take 4, b < 256 :=
    fun b hb => h b (List.drop_subset _ _ (List.take_subset _ _ hb))
  set x := chunkAccum ((src.drop (n / 3 * 4)).take 4) 0 0 with hxdef
  have hm : n % 3 = 0 ∨ n % 3 = 1 ∨ n % 3 = 2 := by omega
  have hmod0 : x % 1626 < 1626 := Nat.mod_lt _ (by norm_num)
  have hmod1 : x / 1626 % 1626 < 1626 := Nat.mod_lt _ (by norm_num)
  have hmod2 : x / (1626 * 1626) % 1626 < 1626 := Nat.mod_lt _ (by norm_num)
  rcases hm with hm | hm | hm
  · rw [hm]
    exact mnwords_getD_mem _ (by omega)
  · rw [hm]
    exact mnwords_getD_mem _ (by omega)
  · rw [hm]
    by_cases hex : src.length - n / 3 * 4 = 3
    · rw [if_pos hex]
      have hlen3 : ((src.drop (n / 3 * 4)).take 4).length = 3 := by
        rw [List.length_take, List.length_drop]
        omega
      have hxval : x = leVal ((src.drop (n / 3 * 4)).take 4) :=
        chunkAccum_leVal _ hbytes (by omega)
      have hlt := leVal_lt _ hbytes
      rw [hlen3] at hlt
      norm_num at hlt
      rw [← hxval] at hlt
      have h7 : x / (1626 * 1626) % 1626 = x / (1626 * 1626) := Nat.mod_eq_of_lt (by omega)
      exact mnwords_getD_mem _ (by omega)
    · rw [if_neg hex]
      exact mnwords_getD_mem _ (by omega)

theorem mn_encode_word_shift (a b c d : Nat) (rest : List Nat) (n : Nat) :
    mn_encode_word (a :: b :: c :: d :: rest) (n + 3) = mn_encode_word rest n := by
  simp only [mn_encode_word]
  have h1 : (n + 3) / 3 * 4 = n / 3 * 4 + 4 := by omega
  have h2 : (n + 3) % 3 = n % 3 := by omega
  rw [h1, h2]
  have h3 : (a :: b :: c :: d :: rest).drop (n / 3 * 4 + 4) = rest.drop (n / 3 * 4) := rfl
  have h4 : (a :: b :: c :: d :: rest).length - (n / 3 * 4 + 4) = rest.length - n / 3 * 4 := by
    simp only [List.length_cons]
    omega
  rw [h3, h4]

theorem wordsFrom_shift (a b c d : Nat) (rest : List Nat) : ∀ (k n : Nat),
    wordsFrom (a :: b :: c :: d :: rest) (n + 3) k = wordsFrom rest n k
  | 0, _ => rfl
  | k + 1, n => by
    simp only [wordsFrom]
    rw [mn_encode_word_shift, show n + 3 + 1 = (n + 1) + 3 by omega,
      wordsFrom_shift a b c d rest k (n + 1)]

theorem wordsFrom_mem (src : List Nat) : ∀ (k n : Nat) (w : List Nat),
    w ∈ wordsFrom src n k → ∃ j, w = mn_encode_word src j
  | 0, _, _, hw => by simp [wordsFrom] at hw
  | k + 1, n, w, hw => by
    rcases List.mem_cons.mp hw with he | hm
    · exact ⟨n, he⟩
    · exact wordsFrom_mem src k (n + 1) w hm

theorem wordsFrom_spec (src : List Nat) (h : ∀ b ∈ src, b < 256) (k n : Nat) :
    ∀ w ∈ wordsFrom src n k, w ≠ [] ∧ ∀ b ∈ w, is_ascii_alpha b = true := by
  intro w hw
  obtain ⟨j, rfl⟩ := wordsFrom_mem src k n w hw
  exact mem_mnwords_spec _ (mn_encode_word_mem src j h)

/-- The default-template encoder emits exactly the words
`mn_encode_word src 0, ..., mn_encode_word src (num_words - 1)` joined by the
`x-x-x--` pattern. -/
theorem encode_eq (src : List Nat) :
    encode src = .ok (joinDefault (wordsFrom src 0 (mn_words_required src))) := by
  rw [encode, encode_with_format]
  have := encodeGo_default (mn_words_required src) src 0 (2 * mn_words_required src + 2)
    (by omega)
  simpa using this

theorem tokens_encode (src : List Nat) (h : ∀ b ∈ src, b < 256) :
    tokens (joinDefault (wordsFrom src 0 (mn_words_required src)))
      = wordsFrom src 0 (mn_words_required src) :=
  tokens_joinDefault _ (wordsFrom_spec src h _ _)

/-! ### The decode loop inverts the encoder -/

theorem mn_encode_word_zero (src : List Nat) :
    mn_encode_word src 0 = MN_WORDS.getD (chunkAccum (src.take 4) 0 0 % 1626) [] := by
  simp [mn_encode_word, MN_BASE]

theorem mn_encode_word_one (src : List Nat) :
    mn_encode_word src 1 = MN_WORDS.getD (chunkAccum (src.take 4) 0 0 / 1626 % 1626) [] := by
  simp [mn_encode_word, MN_BASE]

theorem mn_encode_word_two (src : List Nat) :
    mn_encode_word src 2
      = MN_WORDS.getD (chunkAccum (src.take 4) 0 0 / (1626 * 1626) % 1626
          + if src.length = 3 then 1626 else 0) [] := by
  simp [mn_encode_word, MN_BASE]

theorem decodeWords_cons_ok {w : List Nat} {ws : List (List Nat)}
    {x off d x2 off2 : Nat} (out : List Nat)
    (hw : MN_WORD_INDEX w = some d)
    (hstep : mn_decode_word_index d x off = .ok (x2, off2))
    (hmod : ¬ off2 % 4 = 0) :
    decodeWords (w :: ws) x off out = decodeWords ws x2 off2 out := by
  simp only [decodeWords, hw, hstep]
  rw [if_neg hmod]

theorem decodeWords_cons_flush {w : List Nat} {ws : List (List Nat)}
    {x off d x2 off2 : Nat} (out : List Nat)
    (hw : MN_WORD_INDEX w = some d)
    (hstep : mn_decode_word_index d x off = .ok (x2, off2))
    (hmod : off2 % 4 = 0) :
    decodeWords (w :: ws) x off out = decodeWords ws 0 off2 (out ++ le4 x2) := by
  simp only [decodeWords, hw, hstep]
  rw [if_pos hmod]

/-- Decoding the three words of a full 4-byte chunk value `x` starting at a
chunk boundary accumulates exactly `x`, flushes its four little-endian bytes
and moves the offset past the chunk. -/
theorem decodeWords_chunk (x off : Nat) (out : List Nat) (ws : List (List Nat))
    (hx : x < 4294967296) (hoff : off % 4 = 0) :
    decodeWords (MN_WORDS.getD (x % 1626) [] ::
                 MN_WORDS.getD (x / 1626 % 1626) [] ::
                 MN_WORDS.getD (x / (1626 * 1626) % 1626) [] :: ws) 0 off out
      = decodeWords ws 0 (off + 4) (out ++ le4 x) := by
  have hd0 : x % 1626 < 1626 := Nat.mod_lt _ (by norm_num)
  have hd1 : x / 1626 % 1626 < 1626 := Nat.mod_lt _ (by norm_num)
  have hd2e : x / (1626 * 1626) % 1626 = x / (1626 * 1626) := by omega
  have hd2 : x / (1626 * 1626) ≤ 1624 := by omega
  have hw0 : MN_WORD_INDEX (MN_WORDS.getD (x % 1626) []) = some (x % 1626) :=
    mn_word_index_getD _ (by omega)
  have hw1 : MN_WORD_INDEX (MN_WORDS.getD (x / 1626 % 1626) []) = some (x / 1626 % 1626) :=
    mn_word_index_getD _ (by omega)
  have hw2 : MN_WORD_INDEX (MN_WORDS.getD (x / (1626 * 1626) % 1626) [])
      = some (x / (1626 * 1626) % 1626) :=
    mn_word_index_getD _ (by omega)
  have h0 : mn_decode_word_index (x % 1626) 0 off = .ok (x % 1626, off + 1) :=
    decode_step0 _ _ _ hoff hd0
  have h1 : mn_decode_word_index (x / 1626 % 1626) (x % 1626) (off + 1)
      = .ok (x % 1626 + x / 1626 % 1626 * 1626, off + 2) := by
    rw [decode_step1 _ _ _ (by omega) hd1]
    rw [u32mul_id (by omega), u32add_id (by omega)]
  have hsum : x % 1626 + x / 1626 % 1626 * 1626 + x / (1626 * 1626) * 1626 * 1626 = x := by
    have hr : x / (1626 * 1626) * 1626 * 1626 = x / (1626 * 1626) * (1626 * 1626) := by ring
    rw [hr]
    omega
  have h2 : mn_decode_word_index (x / (1626 * 1626) % 1626)
      (x % 1626 + x / 1626 % 1626 * 1626) (off + 2) = .ok (x, off + 4) := by
    rw [hd2e, decode_step2_base _ _ _ (by omega) hd2 (by omega)]
    rw [show u32mul (x / (1626 * 1626)) 1626 = x / (1626 * 1626) * 1626 from u32mul_id (by omega)]
    rw [u32mul_id (by omega), u32add_id (by omega)]
    rw [hsum]
  rw [decodeWords_cons_ok out hw0 h0 (by omega)]
  rw [decodeWords_cons_ok out hw1 h1 (by omega)]
  rw [decodeWords_cons_flush out hw2 h2 (by omega)]

/-- Decoding the word list of `src` from a chunk boundary reproduces the full
chunks of `src`, leaves the value of the partial tail chunk in the
accumulator, and advances the offset by `src.length`. -/
theorem decodeWords_wordsFrom : ∀ (src : List Nat), (∀ b ∈ src, b < 256) →
    ∀ (off : Nat) (out : List Nat), off % 4 = 0 →
    decodeWords (wordsFrom src 0 (mn_words_required src)) 0 off out
      = .ok (out ++ src.take (src.length - src.length % 4),
             leVal (src.drop (src.length - src.length % 4)),
             off + src.length)
  | [], _, off, out, hoff => by
    simp [mn_words_required, wordsFrom, decodeWords, leVal]
  | [a], h, off, out, hoff => by
    have ha : a < 256 := h a (by simp)
    have hm : mn_words_required [a] = 1 := by simp [mn_words_required]
    rw [hm]
    have hwf : wordsFrom [a] 0 1 = [mn_encode_word [a] 0] := rfl
    rw [hwf, mn_encode_word_zero]
    have hc : chunkAccum (([a] : List Nat).take 4) 0 0 % 1626 = a := by
      rw [show (([a] : List Nat)).take 4 = [a] from rfl]
      rw [chunkAccum_leVal [a] (by simpa using ha) (by simp)]
      simp only [leVal]
      omega
    rw [hc]
    have hw : MN_WORD_INDEX (MN_WORDS.getD a []) = some a := mn_word_index_getD _ (by omega)
    have h0 : mn_decode_word_index a 0 off = .ok (a, off + 1) :=
      decode_step0 _ _ _ hoff (by omega)
    rw [decodeWords_cons_ok out hw h0 (by omega)]
    simp [decodeWords, leVal]
  | [a, b], h, off, out, hoff => by
    have ha : a < 256 := h a (by simp)
    have hb : b < 256 := h b (by simp)
    have hm : mn_words_required [a, b] = 2 := by simp [mn_words_required]
    rw [hm]
    have hwf : wordsFrom [a, b] 0 2 = [mn_encode_word [a, b] 0, mn_encode_word [a, b] 1] := rfl
    rw [hwf, mn_encode_word_zero, mn_encode_word_one]
    have hc : chunkAccum ((([a, b] : List Nat)).take 4) 0 0 = leVal [a, b] := by
      rw [show (([a, b] : List Nat)).take 4 = [a, b] from rfl]
      refine chunkAccum_leVal [a, b] ?_ (by simp)
      intro x hx
      simp only [List.mem_cons, List.not_mem_nil, or_false] at hx
      rcases hx with rfl | rfl <;> assumption
    rw [hc]
    have hXlt : leVal [a, b] < 65536 := by
      have := leVal_lt [a, b] (by
        intro x hx
        simp only [List.mem_cons, List.not_mem_nil, or_false] at hx
        rcases hx with rfl | rfl <;> assumption)
      norm_num at this
      exact this
    have hw0 : MN_WORD_INDEX (MN_WORDS.getD (leVal [a, b] % 1626) [])
        = some (leVal [a, b] % 1626) := mn_word_index_getD _ (by omega)
    have h0 : mn_decode_word_index (leVal [a, b] % 1626) 0 off
        = .ok (leVal [a, b] % 1626, off + 1) :=
      decode_step0 _ _ _ hoff (by omega)
    rw [decodeWords_cons_ok out hw0 h0 (by omega)]
    have hw1 : MN_WORD_INDEX (MN_WORDS.getD (leVal [a, b] / 1626 % 1626) [])
        = some (leVal [a, b] / 1626 % 1626) := mn_word_index_getD _ (by omega)
    have h1 : mn_decode_word_index (leVal [a, b] / 1626 % 1626) (leVal [a, b] % 1626) (off + 1)
        = .ok (leVal [a, b], off + 2) := by
      rw [decode_step1 _ _ _ (by omega) (by omega)]
      rw [u32mul_id (by omega), u32add_id (by omega)]
      rw [show leVal [a, b] % 1626 + leVal [a, b] / 1626 % 1626 * 1626 = leVal [a, b] by omega]
    rw [decodeWords_cons_ok out hw1 h1 (by omega)]
    simp [decodeWords, leVal]
  | [a, b, c], h, off, out, hoff => by
    have ha : a < 256 := h a (by simp)
    have hb : b < 256 := h b (by simp)
    have hcc : c < 256 := h c (by simp)
    have hm : mn_words_required [a, b, c] = 3 := by simp [mn_words_required]
    rw [hm]
    have hwf : wordsFrom [a, b, c] 0 3
        = [mn_encode_word [a, b, c] 0, mn_encode_word [a, b, c] 1,
           mn_encode_word [a, b, c] 2] := rfl
    rw [hwf, mn_encode_word_zero, mn_encode_word_one, mn_encode_word_two]
    rw [if_pos (by simp)]
    have hc : chunkAccum ((([a, b, c] : List Nat)).take 4) 0 0 = leVal [a, b, c] := by
      rw [show (([a, b, c] : List Nat)).take 4 = [a, b, c] from rfl]
      refine chunkAccum_leVal [a, b, c] ?_ (by simp)
      intro x hx
      simp only [List.mem_cons, List.not_mem_nil, or_false] at hx
      rcases hx with rfl | rfl | rfl <;> assumption
    rw [hc]
    have hXlt : leVal [a, b, c] < 16777216 := by
      have := leVal_lt [a, b, c] (by
        intro x hx
        simp only [List.mem_cons, List.not_mem_nil, or_false] at hx
        rcases hx with rfl | rfl | rfl <;> assumption)
      norm_num at this
      exact this
    have hq6 : leVal [a, b, c] / (1626 * 1626) ≤ 6 := by omega
    rw [show leVal [a, b, c] / (1626 * 1626) % 1626 + 1626
        = leVal [a, b, c] / (1626 * 1626) + 1626 by omega]
    have hw0 : MN_WORD_INDEX (MN_WORDS.getD (leVal [a, b, c] % 1626) [])
        = some (leVal [a, b, c] % 1626) := mn_word_index_getD _ (by omega)
    have h0 : mn_decode_word_index (leVal [a, b, c] % 1626) 0 off
        = .ok (leVal [a, b, c] % 1626, off + 1) :=
      decode_step0 _ _ _ hoff (by omega)
    rw [decodeWords_cons_ok out hw0 h0 (by omega)]
    have hw1 : MN_WORD_INDEX (MN_WORDS.getD (leVal [a, b, c] / 1626 % 1626) [])
        = some (leVal [a, b, c] / 1626 % 1626) := mn_word_index_getD _ (by omega)
    have h1 : mn_decode_word_index (leVal [a, b, c] / 1626 % 1626)
        (leVal [a, b, c] % 1626) (off + 1)
        = .ok (leVal [a, b, c] % 1626 + leVal [a, b, c] / 1626 % 1626 * 1626, off + 2) := by
      rw [decode_step1 _ _ _ (by omega) (by omega)]
      rw [u32mul_id (by omega), u32add_id (by omega)]
    rw [decodeWords_cons_ok out hw1 h1 (by omega)]
    have hw2 : MN_WORD_INDEX (MN_WORDS.getD (leVal [a, b, c] / (1626 * 1626) + 1626) [])
        = some (leVal [a, b, c] / (1626 * 1626) + 1626) := mn_word_index_getD _ (by omega)
    have h2 : mn_decode_word_index (leVal [a, b, c] / (1626 * 1626) + 1626)
        (leVal [a, b, c] % 1626 + leVal [a, b, c] / 1626 % 1626 * 1626) (off + 2)
        = .ok (leVal [a, b, c], off + 3) := by
      rw [decode_step2_rem _ _ _ (by omega) (by omega)]
      rw [show leVal [a, b, c] / (1626 * 1626) + 1626 - 1626
          = leVal [a, b, c] / (1626 * 1626) by omega]
      rw [show u32mul (leVal [a, b, c] / (1626 * 1626)) 1626
          = leVal [a, b, c] / (1626 * 1626) * 1626 from u32mul_id (by omega)]
      rw [u32mul_id (by omega), u32add_id (by omega)]
      rw [show leVal [a, b, c] % 1626 + leVal [a, b, c] / 1626 % 1626 * 1626
          + leVal [a, b, c] / (1626 * 1626) * 1626 * 1626 = leVal [a, b, c] by
        have hr : leVal [a, b, c] / (1626 * 1626) * 1626 * 1626
            = leVal [a, b, c] / (1626 * 1626) * (1626 * 1626) := by ring
        rw [hr]
        omega]
    rw [decodeWords_cons_ok out hw2 h2 (by omega)]
    simp [decodeWords, leVal]
  | a :: b :: c :: d :: rest, h, off, out, hoff => by
    have ha : a < 256 := h a (by simp)
    have hb : b < 256 := h b (by simp)
    have hcc : c < 256 := h c (by simp)
    have hd : d < 256 := h d (by simp)
    have hrest : ∀ x ∈ rest, x < 256 := fun x hx => h x (by simp [hx])
    have hm : mn_words_required (a :: b :: c :: d :: rest)
        = mn_words_required rest + 3 := by
      simp only [mn_words_required, List.length_cons]
      omega
    rw [hm]
    have hwf : wordsFrom (a :: b :: c :: d :: rest) 0 (mn_words_required rest + 3)
        = mn_encode_word (a :: b :: c :: d :: rest) 0
          :: mn_encode_word (a :: b :: c :: d :: rest) 1
          :: mn_encode_word (a :: b :: c :: d :: rest) 2
          :: wordsFrom (a :: b :: c :: d :: rest) (0 + 3) (mn_words_required rest) := rfl
    rw [hwf, wordsFrom_shift a b c d rest (mn_words_required rest) 0]
    rw [mn_encode_word_zero, mn_encode_word_one, mn_encode_word_two]
    rw [if_neg (by simp)]
    rw [Nat.add_zero]
    have hby : ∀ x ∈ ([a, b, c, d] : List Nat), x < 256 := by
      intro x hx
      simp only [List.mem_cons, List.not_mem_nil, or_false] at hx
      rcases hx with rfl | rfl | rfl | rfl <;> assumption
    have hc4 : chunkAccum ((a :: b :: c :: d :: rest).take 4) 0 0 = leVal [a, b, c, d] := by
      rw [show (a :: b :: c :: d :: rest).take 4 = [a, b, c, d] from rfl]
      exact chunkAccum_leVal [a, b, c, d] hby (by simp)
    rw [hc4]
    have hXlt : leVal [a, b, c, d] < 4294967296 := by
      have := leVal_lt [a, b, c, d] hby
      norm_num at this
      exact this
    rw [decodeWords_chunk (leVal [a, b, c, d]) off out _ hXlt hoff]
    rw [le4_leVal [a, b, c, d] hby (by simp)]
    rw [decodeWords_wordsFrom rest hrest (off + 4) (out ++ [a, b, c, d]) (by omega)]
    have htake : (a :: b :: c :: d :: rest).take
        ((a :: b :: c :: d :: rest).length - (a :: b :: c :: d :: rest).length % 4)
        = a :: b :: c :: d :: rest.take (rest.length - rest.length % 4) := by
      rw [show (a :: b :: c :: d :: rest).length - (a :: b :: c :: d :: rest).length % 4
          = (rest.length - rest.length % 4) + 4 by simp only [List.length_cons]; omega]
      rfl
    have hdrop : (a :: b :: c :: d :: rest).drop
        ((a :: b :: c :: d :: rest).length - (a :: b :: c :: d :: rest).length % 4)
        = rest.drop (rest.length - rest.length % 4) := by
      rw [show (a :: b :: c :: d :: rest).length - (a :: b :: c :: d :: rest).length % 4
          = (rest.length - rest.length % 4) + 4 by simp only [List.length_cons]; omega]
      rfl
    rw [htake, hdrop]
    simp only [Except.ok.injEq, Prod.mk.injEq, true_and, and_true, List.length_cons]
    constructor
    · simp [List.append_assoc]
    · omega

/-- Decoding the encoder output recovers the source bytes and byte count. -/
theorem decode_encode (src : List Nat) (h : ∀ b ∈ src, b < 256) :
    decode (joinDefault (wordsFrom src 0 (mn_words_required src))) = .ok (src, src.length) := by
  have htail : ∀ b ∈ src.drop (src.length - src.length % 4), b < 256 :=
    fun b hb => h b (List.drop_subset _ _ hb)
  have htlen : (src.drop (src.length - src.length % 4)).length = src.length % 4 := by
    rw [List.length_drop]
    omega
  simp only [decode, tokens_encode src h,
    decodeWords_wordsFrom src h 0 [] (by norm_num), List.nil_append, Nat.zero_add]
  by_cases hr : src.length % 4 = 0
  · rw [hr]
    have hdr : src.drop (src.length - 0) = [] := by
      rw [Nat.sub_zero]
      simp
    have htk : src.take (src.length - 0) = src := by
      rw [Nat.sub_zero]
      simp
    rw [hdr, htk]
    simp [mn_decode_finish, leVal]
  · have hr13 : src.length % 4 = 1 ∨ src.length % 4 = 2 ∨ src.length % 4 = 3 := by omega
    have hxlt := leVal_lt _ htail
    rw [htlen] at hxlt
    rw [if_pos (by omega)]
    have htkr : (le4 (leVal (src.drop (src.length - src.length % 4)))).take (src.length % 4)
        = src.drop (src.length - src.length % 4) := by
      have h1 := le4_take (src.drop (src.length - src.length % 4)) htail (by omega)
      rw [htlen] at h1
      exact h1
    rw [htkr, List.take_append_drop]
    have hfin : mn_decode_finish (leVal (src.drop (src.length - src.length % 4)))
        (src.length % 4) = .ok () := by
      rw [mn_decode_finish, if_neg ?hneg]
      case hneg =>
        intro hcon
        rcases hr13 with h1 | h1 | h1 <;> rw [h1] at hcon hxlt <;> norm_num at hxlt <;> omega
    rw [hfin]

/-! ### Termination of templated encoding (template with a letter, not
ending in a letter) -/

theorem skipNonLetters_suffix : ∀ cur : List Nat, (skipNonLetters cur).2 <:+ cur
  | [] => by simp [skipNonLetters]
  | c :: rest => by
    simp only [skipNonLetters]
    by_cases h : is_ascii_alpha c
    · rw [if_pos h]
    · rw [if_neg h]
      rcases hsp : skipNonLetters rest with ⟨sep, r⟩
      have h2 := skipNonLetters_suffix rest
      rw [hsp] at h2
      exact h2.trans (List.suffix_cons c rest)

theorem skipNonLetters_any : ∀ cur : List Nat,
    cur.any is_ascii_alpha = true → (skipNonLetters cur).2 ≠ []
  | [], h => by simp at h
  | c :: rest, h => by
    simp only [skipNonLetters]
    by_cases hc : is_ascii_alpha c
    · rw [if_pos hc]
      simp
    · rw [if_neg hc]
      have h2 : rest.any is_ascii_alpha = true := by
        simp only [List.any_cons, hc, Bool.false_or] at h
        exact h
      rcases hsp : skipNonLetters rest with ⟨sep, r⟩
      have h3 := skipNonLetters_any rest h2
      rw [hsp] at h3
      simpa using h3

theorem skipLetters_suffix : ∀ l l2 : List Nat, skipLetters l = some l2 → l2 <:+ l
  | [], _, h => by simp [skipLetters] at h
  | c :: rest, l2, h => by
    simp only [skipLetters] at h
    by_cases hc : is_ascii_alpha c
    · rw [if_pos hc] at h
      exact (skipLetters_suffix rest l2 h).trans (List.suffix_cons c rest)
    · rw [if_neg hc] at h
      simp only [Option.some.injEq] at h
      rw [← h]

theorem skipLetters_some : ∀ l : List Nat, l ≠ [] →
    (∀ x ∈ l.getLast?, is_ascii_alpha x = false) → ∃ l2, skipLetters l = some l2
  | [], h, _ => absurd rfl h
  | [c], _, hl => by
    have hc : is_ascii_alpha c = false := hl c (by simp)
    simp [skipLetters, hc]
  | c :: d :: t, _, hl => by
    simp only [skipLetters]
    by_cases hc : is_ascii_alpha c
    · rw [if_pos hc]
      exact skipLetters_some (d :: t) (by simp)
        (by simpa [List.getLast?_cons_cons] using hl)
    · rw [if_neg hc]
      exact ⟨_, rfl⟩

theorem getLast?_of_suffix {l2 l : List Nat} (h : l2 <:+ l) (_hne : l2 ≠ []) :
    ∀ x ∈ l2.getLast?, ∀ y ∈ l.getLast?, x = y := by
  obtain ⟨t, rfl⟩ := h
  intro x hx y hy
  rw [List.getLast?_append] at hy
  rw [hx] at hy
  simp at hy
  rw [hy]

theorem exists_ok_prependE {p : List Nat} {e : EncOut} (h : ∃ o, e = .ok o) :
    ∃ o, prependE p e = .ok o := by
  obtain ⟨o, rfl⟩ := h
  exact ⟨p ++ o, rfl⟩

theorem encodeGo_terminates (src fmt : List Nat)
    (halpha : fmt.any is_ascii_alpha = true)
    (hlast : ∀ x ∈ fmt.getLast?, is_ascii_alpha x = false) :
    ∀ (k n fuel : Nat) (cur : List Nat), cur <:+ fmt → 2 * k + 2 ≤ fuel →
    ∃ out, encodeGo src fmt (n + k) fuel n cur = .ok out := by
  have hemit : ∀ (cur : List Nat), cur <:+ fmt → (skipNonLetters cur).2 ≠ [] →
      ∃ sep c rest cur2, skipNonLetters cur = (sep, c :: rest) ∧
        skipLetters (c :: rest) = some cur2 ∧ cur2 <:+ fmt := by
    intro cur hsuf hne
    rcases hsp : skipNonLetters cur with ⟨sep, rest⟩
    rw [hsp] at hne
    rcases rest with _ | ⟨c, rest⟩
    · exact absurd rfl hne
    · have hrs : (c :: rest) <:+ fmt := by
        have := skipNonLetters_suffix cur
        rw [hsp] at this
        exact this.trans hsuf
      have hlast2 : ∀ x ∈ (c :: rest).getLast?, is_ascii_alpha x = false := by
        intro x hx
        rcases hy : fmt.getLast? with _ | y
        · obtain ⟨t, ht⟩ := hrs
          rw [← ht] at hy
          rw [List.getLast?_append, hx] at hy
          simp at hy
        · rw [getLast?_of_suffix hrs (by simp) x hx y hy]
          exact hlast y hy
      obtain ⟨cur2, hsl⟩ := skipLetters_some (c :: rest) (by simp) hlast2
      exact ⟨sep, c, rest, cur2, rfl, hsl, (skipLetters_suffix _ _ hsl).trans hrs⟩
  intro k
  induction k with
  | zero =>
    intro n fuel cur _ hfuel
    obtain ⟨f, rfl⟩ : ∃ f, fuel = f + 1 := ⟨fuel - 1, by omega⟩
    exact ⟨[], by rw [encodeGo_done src _ _ _ _ _ (by omega)]⟩
  | succ k2 ih =>
    intro n fuel cur hsuf hfuel
    rcases hsp : skipNonLetters cur with ⟨sep, rest⟩
    rcases rest with _ | ⟨c, rest⟩
    · obtain ⟨f, rfl⟩ : ∃ f, fuel = f + 2 := ⟨fuel - 2, by omega⟩
      rw [show n + (k2 + 1) = n + k2 + 1 by omega]
      rw [encodeGo_step_wrap src _ _ (f + 1) n _ _ (by omega) hsp]
      apply exists_ok_prependE
      obtain ⟨sep0, c0, rest0, cur2, hsp0, hsl0, hc2⟩ :=
        hemit fmt (List.suffix_refl fmt) (skipNonLetters_any fmt halpha)
      rw [encodeGo_step_emit src _ _ f n _ _ _ _ _ (by omega) hsp0 hsl0]
      apply exists_ok_prependE
      rw [show n + k2 + 1 = (n + 1) + k2 by omega]
      exact ih (n + 1) f cur2 hc2 (by omega)
    · obtain ⟨f, rfl⟩ : ∃ f, fuel = f + 1 := ⟨fuel - 1, by omega⟩
      obtain ⟨sep2, c2, rest2, cur2, hsp2, hsl2, hc2⟩ := hemit cur hsuf (by rw [hsp]; simp)
      rw [show n + (k2 + 1) = n + k2 + 1 by omega]
      rw [encodeGo_step_emit src _ _ f n _ _ _ _ _ (by omega) hsp2 hsl2]
      apply exists_ok_prependE
      rw [show n + k2 + 1 = (n + 1) + k2 by omega]
      exact ih (n + 1) f cur2 hc2 (by omega)

/-! ### Decoder states reachable through the decode loop -/

/-- States `(x, offset)` of the accumulator and offset that the loop of
`decode` can be in before processing a token: the initial state, or the
result of folding a dictionary index (necessarily `< 1633`) into a reachable
state, with the accumulator reset to `0` whenever a 4-byte chunk completes,
exactly as in `decode` (source lines 502-510). -/
inductive DecReach : Nat → Nat → Prop where
  | init : DecReach 0 0
  | step {idx x off x2 off2 : Nat} : idx < 1633 → DecReach x off →
      mn_decode_word_index idx x off = .ok (x2, off2) →
      DecReach (if off2 % 4 = 0 then 0 else x2) off2

theorem decode_step2_invalid (idx x off : Nat) (hoff : off % 4 = 2) (hidx : idx < 1626)
    (hchk : 1625 ≤ idx ∨ (idx = 1624 ∧ 1312671 < x)) :
    mn_decode_word_index idx x off = .error .invalidEncoding := by
  simp only [mn_decode_word_index, MN_BASE, hoff]
  rw [if_neg (by omega), if_neg (by omega), if_pos hchk]

theorem decode_step_remword (idx x off : Nat) (hoff : off % 4 ≠ 2) (hidx : 1626 ≤ idx) :
    mn_decode_word_index idx x off = .error .unexpectedRemainderWord := by
  simp only [mn_decode_word_index, MN_BASE]
  rw [if_pos ⟨hidx, hoff⟩]

theorem decReach_bound : ∀ x off, DecReach x off →
    (off % 4 = 0 → x = 0) ∧ (off % 4 = 1 → x ≤ 1625) ∧
    (off % 4 = 2 → x ≤ 2643875) ∧ (off % 4 = 3 → x ≤ 18507131) := by
  intro x off h
  induction h with
  | init => exact ⟨fun _ => rfl, fun hc => by omega, fun hc => by omega, fun hc => by omega⟩
  | @step idx x off x2 off2 hidx hre hstep ih =>
    have hm : off % 4 = 0 ∨ off % 4 = 1 ∨ off % 4 = 2 ∨ off % 4 = 3 := by omega
    rcases hm with hm | hm | hm | hm
    · by_cases hge : 1626 ≤ idx
      · rw [decode_step_remword idx x off (by omega) hge] at hstep
        cases hstep
      · rw [decode_step0 idx x off hm (by omega)] at hstep
        simp only [Except.ok.injEq, Prod.mk.injEq] at hstep
        obtain ⟨rfl, rfl⟩ := hstep
        rw [if_neg (by omega)]
        exact ⟨fun hc => by omega, fun hc => by omega, fun hc => by omega, fun hc => by omega⟩
    · by_cases hge : 1626 ≤ idx
      · rw [decode_step_remword idx x off (by omega) hge] at hstep
        cases hstep
      · have hx : x ≤ 1625 := ih.2.1 hm
        rw [decode_step1 idx x off hm (by omega)] at hstep
        rw [u32mul_id (by omega), u32add_id (by omega)] at hstep
        simp only [Except.ok.injEq, Prod.mk.injEq] at hstep
        obtain ⟨rfl, rfl⟩ := hstep
        rw [if_neg (by omega)]
        exact ⟨fun hc => by omega, fun hc => by omega, fun hc => by omega, fun hc => by omega⟩
    · have hx : x ≤ 2643875 := ih.2.2.1 hm
      by_cases hge : 1626 ≤ idx
      · rw [decode_step2_rem idx x off hm hge] at hstep
        rw [show u32mul (idx - 1626) 1626 = (idx - 1626) * 1626 from u32mul_id (by omega)] at hstep
        rw [u32mul_id (by omega), u32add_id (by omega)] at hstep
        simp only [Except.ok.injEq, Prod.mk.injEq] at hstep
        obtain ⟨rfl, rfl⟩ := hstep
        rw [if_neg (by omega)]
        exact ⟨fun hc => by omega, fun hc => by omega, fun hc => by omega, fun hc => by omega⟩
      · by_cases hchk : 1625 ≤ idx ∨ (idx = 1624 ∧ 1312671 < x)
        · rw [decode_step2_invalid idx x off hm (by omega) hchk] at hstep
          cases hstep
        · rw [decode_step2_base idx x off hm (by omega) (by omega)] at hstep
          rw [show u32mul idx 1626 = idx * 1626 from u32mul_id (by omega)] at hstep
          rw [u32mul_id (by omega), u32add_id (by omega)] at hstep
          simp only [Except.ok.injEq, Prod.mk.injEq] at hstep
          obtain ⟨rfl, rfl⟩ := hstep
          rw [if_pos (by omega)]
          exact ⟨fun hc => rfl, fun hc => by omega, fun hc => by omega, fun hc => by omega⟩
    · by_cases hge : 1626 ≤ idx
      · rw [decode_step3_rem idx x off hm hge] at hstep
        cases hstep
      · rw [decode_step3_base idx x off hm (by omega)] at hstep
        cases hstep

/-! ## The claims -/

/-- C1: for every finite byte sequence `b` (entries `< 256`, as the Rust
`u8` element type guarantees), encoding with the default template succeeds
and decoding the resulting text returns exactly `b` (together with its
length, which is the value `decode` returns). -/
theorem claim_C1_round_trip (b : List Nat) (h : ∀ x ∈ b, x < 256) :
    ∃ out, encode b = .ok out ∧ decode out = .ok (b, b.length) :=
  ⟨_, encode_eq b, decode_encode b h⟩

theorem claim_C1_witness :
    (∀ x ∈ ([101, 2, 240, 6, 108, 11, 20, 97] : List Nat), x < 256) ∧
    (∃ out, encode [101, 2, 240, 6, 108, 11, 20, 97] = .ok out ∧
      decode out = .ok ([101, 2, 240, 6, 108, 11, 20, 97],
        ([101, 2, 240, 6, 108, 11, 20, 97] : List Nat).length)) :=
  ⟨by decide, claim_C1_round_trip [101, 2, 240, 6, 108, 11, 20, 97] (by decide)⟩

/-- C2: for every input byte sequence, the default-template encoding emits
exactly `(L + 1) * 3 / 4` words (integer floor division), which is the value
of `mn_words_required`; in particular `L = 8` gives 6 words, `L = 3` gives 3
words and `L = 4` gives 3 words. -/
theorem claim_C2_word_count (src : List Nat) (h : ∀ x ∈ src, x < 256) :
    (∃ out, encode src = .ok out ∧ (tokens out).length = (src.length + 1) * 3 / 4) ∧
    mn_words_required (List.replicate 8 0) = 6 ∧
    mn_words_required (List.replicate 3 0) = 3 ∧
    mn_words_required (List.replicate 4 0) = 3 := by
  refine ⟨⟨_, encode_eq src, ?_⟩, by decide, by decide, by decide⟩
  rw [tokens_encode src h, wordsFrom_length]
  rfl

theorem claim_C2_witness :
    (∀ x ∈ ([101, 2, 240, 6, 108, 11, 20, 97] : List Nat), x < 256) ∧
    ((∃ out, encode [101, 2, 240, 6, 108, 11, 20, 97] = .ok out ∧
        (tokens out).length
          = (([101, 2, 240, 6, 108, 11, 20, 97] : List Nat).length + 1) * 3 / 4) ∧
      mn_words_required (List.replicate 8 0) = 6 ∧
      mn_words_required (List.replicate 3 0) = 3 ∧
      mn_words_required (List.replicate 4 0) = 3) :=
  ⟨by decide, claim_C2_word_count [101, 2, 240, 6, 108, 11, 20, 97] (by decide)⟩

/-- C3 counterexample: a 1-byte input encodes to the single word `academy`
(1 word, not 3), and a 5-byte input encodes to 4 words, not 6. -/
theorem claim_C3_counterexample :
    encode [0] = .ok (strBytes "academy") ∧
    (tokens (strBytes "academy")).length = 1 ∧
    encode [0, 0, 0, 0, 0] = .ok (strBytes "academy-academy-academy--academy") ∧
    (tokens (strBytes "academy-academy-academy--academy")).length = 4 := by decide

/-- C3 amended: per the formula `(L + 1) * 3 / 4`, encoding 1 byte gives 1
word, 2 bytes give 2 words, 3 or 4 bytes give 3 words, 5 bytes give 4 words,
6 bytes give 5 words, and 7 or 8 bytes give 6 words. -/
theorem claim_C3_amended (src : List Nat) (h : ∀ x ∈ src, x < 256) :
    ∃ out, encode src = .ok out ∧
      ((src.length = 1 → (tokens out).length = 1) ∧
       (src.length = 2 → (tokens out).length = 2) ∧
       (3 ≤ src.length → src.length ≤ 4 → (tokens out).length = 3) ∧
       (src.length = 5 → (tokens out).length = 4) ∧
       (src.length = 6 → (tokens out).length = 5) ∧
       (7 ≤ src.length → src.length ≤ 8 → (tokens out).length = 6)) := by
  refine ⟨_, encode_eq src, ?_⟩
  rw [tokens_encode src h, wordsFrom_length]
  simp only [mn_words_required]
  refine ⟨fun hc => by omega, fun hc => by omega, fun h1 h2 => by omega,
    fun hc => by omega, fun hc => by omega, fun h1 h2 => by omega⟩

theorem claim_C3_witness :
    (∀ x ∈ ([7] : List Nat), x < 256) ∧
    (∃ out, encode [7] = .ok out ∧
      ((([7] : List Nat).length = 1 → (tokens out).length = 1) ∧
       (([7] : List Nat).length = 2 → (tokens out).length = 2) ∧
       (3 ≤ ([7] : List Nat).length → ([7] : List Nat).length ≤ 4 → (tokens out).length = 3) ∧
       (([7] : List Nat).length = 5 → (tokens out).length = 4) ∧
       (([7] : List Nat).length = 6 → (tokens out).length = 5) ∧
       (7 ≤ ([7] : List Nat).length → ([7] : List Nat).length ≤ 8 → (tokens out).length = 6))) :=
  ⟨by decide, claim_C3_amended [7] (by decide)⟩

/-- C4 counterexample: after `consul-quiet-fax` the decoder sits at
`offset % 4 == 3` (shown by the loop state), yet appending the remainder
word `fax` fails with `UnexpectedRemainderWord`, not `DataPastRemainder`:
the remainder-guard at the top of `mn_decode_word_index` fires first. -/
theorem claim_C4_counterexample :
    decodeWords (tokens (strBytes "consul-quiet-fax")) 0 0 [] = .ok ([], 4252161, 3) ∧
    decode (strBytes "consul-quiet-fax-fax") = .error .unexpectedRemainderWord ∧
    decode (strBytes "consul-quiet-fax-fax") ≠ .error .dataPastRemainder := by decide

/-- C4 amended: a token processed at `offset % 4 == 3` makes decode fail
with `DataPastRemainder` when its dictionary index is a base index
(`< 1626`), but with `UnexpectedRemainderWord` when it is a remainder index
(`≥ 1626`), because the remainder-word guard is checked first. -/
theorem claim_C4_amended (idx x off : Nat) (hoff : off % 4 = 3) :
    (idx < 1626 → mn_decode_word_index idx x off = .error .dataPastRemainder) ∧
    (1626 ≤ idx → mn_decode_word_index idx x off = .error .unexpectedRemainderWord) :=
  ⟨fun h => decode_step3_base idx x off hoff h,
   fun h => decode_step3_rem idx x off hoff h⟩

theorem claim_C4_witness :
    mn_decode_word_index 5 0 3 = .error .dataPastRemainder ∧
    mn_decode_word_index 1627 0 3 = .error .unexpectedRemainderWord :=
  ⟨(claim_C4_amended 5 0 3 (by decide)).1 (by decide),
   (claim_C4_amended 1627 0 3 (by decide)).2 (by decide)⟩

/-- C5 counterexample: the token stream `academy-piano-yes` ends at
remainder 3 with accumulator `16778694 > 0xFFFFFF`, yet decode SUCCEEDS
(returning the low three bytes), because `mn_decode_finish` checks only
remainders 1 and 2. -/
theorem claim_C5_counterexample :
    decodeWords (tokens (strBytes "academy-piano-yes")) 0 0 [] = .ok ([], 16778694, 3) ∧
    16777215 < 16778694 ∧
    decode (strBytes "academy-piano-yes") = .ok ([198, 5, 0], 3) := by decide

/-- C5 amended: after the loop, decode fails with `UnexpectedRemainder` iff
remainder 1 with `x > 0xFF` or remainder 2 with `x > 0xFFFF`; remainder 3 is
NOT checked (`mn_decode_finish` then always succeeds).  When the final check
passes, decode returns the written bytes and the total decoded byte count. -/
theorem claim_C5_amended (x r : Nat) :
    (mn_decode_finish x r = .error .unexpectedRemainder ↔
      ((r = 2 ∧ 65535 < x) ∨ (r = 1 ∧ 255 < x))) ∧
    (r = 3 → mn_decode_finish x r = .ok ()) ∧
    (∀ (s out : List Nat) (xf off : Nat), decodeWords (tokens s) 0 0 [] = .ok (out, xf, off) →
      mn_decode_finish xf (off % 4) = .ok () →
      decode s = .ok ((if 0 < off % 4 then out ++ (le4 xf).take (off % 4) else out), off)) := by
  refine ⟨⟨?_, ?_⟩, ?_, ?_⟩
  · intro h
    by_cases hp : (r = 2 ∧ 65535 < x) ∨ (r = 1 ∧ 255 < x)
    · exact hp
    · rw [mn_decode_finish, if_neg hp] at h
      cases h
  · intro hp
    rw [mn_decode_finish, if_pos hp]
  · intro hr
    rw [mn_decode_finish, if_neg (by omega)]
  · intro s out xf off h1 h2
    simp only [decode, h1, h2]

theorem claim_C5_witness :
    mn_decode_finish 300 1 = .error .unexpectedRemainder ∧
    mn_decode_finish 300 3 = .ok () :=
  ⟨(claim_C5_amended 300 1).1.mpr (by decide), (claim_C5_amended 300 3).2.1 (by decide)⟩

/-- C6: at a slot-2 position (`offset % 4 == 2`) with a base index
`idx < 1626`, decode fails with `InvalidEncoding` iff `idx ≥ 1625`, or
`idx = 1624` with accumulated `x > 1312671`; otherwise it adds
`idx * 1626 * 1626` to `x` (as a `u32`) and advances the offset by 2. -/
theorem claim_C6_slot2 (idx x off : Nat) (hoff : off % 4 = 2) (hidx : idx < 1626) :
    (mn_decode_word_index idx x off = .error .invalidEncoding ↔
      (1625 ≤ idx ∨ (idx = 1624 ∧ 1312671 < x))) ∧
    (¬(1625 ≤ idx ∨ (idx = 1624 ∧ 1312671 < x)) →
      mn_decode_word_index idx x off
        = .ok ((x + idx * 1626 * 1626) % 4294967296, off + 2)) := by
  constructor
  · constructor
    · intro h
      by_cases hchk : 1625 ≤ idx ∨ (idx = 1624 ∧ 1312671 < x)
      · exact hchk
      · rw [decode_step2_base idx x off hoff (by omega) (by omega)] at h
        cases h
    · exact decode_step2_invalid idx x off hoff hidx
  · intro hchk
    rw [decode_step2_base idx x off hoff (by omega) (by omega)]
    rw [show u32mul idx 1626 = idx * 1626 from u32mul_id (by omega)]
    rw [show u32mul (idx * 1626) 1626 = idx * 1626 * 1626 from u32mul_id (by omega)]
    rfl

theorem claim_C6_witness :
    mn_decode_word_index 5 0 2 = .ok ((0 + 5 * 1626 * 1626) % 4294967296, 2 + 2) ∧
    mn_decode_word_index 1625 0 2 = .error .invalidEncoding :=
  ⟨(claim_C6_slot2 5 0 2 (by decide) (by decide)).2 (by decide),
   (claim_C6_slot2 1625 0 2 (by decide) (by decide)).1.mpr (by decide)⟩

/-- C7: the literal test vectors hold for both encode and decode. -/
theorem claim_C7_vectors :
    encode [101, 2, 240, 6, 108, 11, 20, 97]
      = .ok (strBytes "digital-apollo-aroma--rival-artist-rebel") ∧
    decode (strBytes "digital-apollo-aroma--rival-artist-rebel")
      = .ok ([101, 2, 240, 6, 108, 11, 20, 97], 8) ∧
    encode [1, 226, 64] = .ok (strBytes "consul-quiet-fax") ∧
    decode (strBytes "consul-quiet-fax") = .ok ([1, 226, 64], 3) := by decide

/-- C8: the 1633 dictionary words are pairwise distinct, and the reverse
index is a left inverse of the dictionary array. -/
theorem claim_C8_dictionary :
    MN_WORDS.Nodup ∧ ∀ i, i < 1633 → MN_WORD_INDEX (MN_WORDS.getD i []) = some i :=
  ⟨mnwords_nodup, mn_word_index_getD⟩

theorem claim_C8_witness : MN_WORD_INDEX (MN_WORDS.getD 1627 []) = some 1627 :=
  claim_C8_dictionary.2 1627 (by decide)

/-- C9 counterexample: the template `"x"` contains an ASCII letter, yet
encoding one byte with it panics (out-of-bounds `format[i]` in the
letter-skipping loop), so `encode_with_format` does not terminate normally
for every template containing a letter. -/
theorem claim_C9_counterexample :
    encode_with_format [0] (strBytes "x") = .panicked := by decide

/-- C9 amended: `encode_with_format` terminates (the fueled loop returns a
result within its fuel) for every finite input and every template that
contains at least one ASCII letter AND does not end with a letter; the
template is consumed left to right, non-letters copied verbatim, each
maximal letter run replaced by the next word, wrapping around until all
words are emitted (this consumption is the definition of `encodeGo`).  A
template whose final character is a letter can instead panic on an
out-of-bounds index. -/
theorem claim_C9_amended (src fmt : List Nat)
    (halpha : fmt.any is_ascii_alpha = true)
    (hlast : is_ascii_alpha (fmt.getLastD 48) = false) :
    ∃ out, encode_with_format src fmt = .ok out := by
  have hlast2 : ∀ x ∈ fmt.getLast?, is_ascii_alpha x = false := by
    intro x hx
    rw [List.getLastD_eq_getLast?] at hlast
    simp only [Option.mem_def] at hx
    rw [hx] at hlast
    simpa using hlast
  have h := encodeGo_terminates src fmt halpha hlast2 (mn_words_required src) 0
    (2 * mn_words_required src + 2) fmt (List.suffix_refl fmt) (by omega)
  simpa [encode_with_format] using h

theorem claim_C9_witness :
    ((strBytes "x-").any is_ascii_alpha = true) ∧
    (is_ascii_alpha ((strBytes "x-").getLastD 48) = false) ∧
    (∃ out, encode_with_format [0] (strBytes "x-") = .ok out) :=
  ⟨by decide, by decide, claim_C9_amended [0] (strBytes "x-") (by decide) (by decide)⟩

/-- C10: in every decoder state reachable from `x = 0, offset = 0` through
the decode loop, with any dictionary index (`< 1633`): at slot 1 the sum
`x + idx * 1626` stays below `2^32`; at slot 2 a base index that passes the
validity check satisfies `x + idx * 1626² ≤ 2^32 - 1`, the bound being
attained exactly at `idx = 1624`, `x = 1312671`; the remainder branch sum
also stays below `2^32`; and every accumulator the step produces fits in a
`u32`, so the `u32` additions are exact and cannot overflow. -/
theorem claim_C10_no_overflow (x off idx : Nat) (hr : DecReach x off) (hidx : idx < 1633) :
    (off % 4 = 1 → x + idx * 1626 < 4294967296) ∧
    (off % 4 = 2 → idx < 1626 →
      mn_decode_word_index idx x off ≠ .error .invalidEncoding →
      x + idx * 1626 * 1626 ≤ 4294967295) ∧
    (off % 4 = 2 → 1626 ≤ idx → x + (idx - 1626) * 1626 * 1626 < 4294967296) ∧
    1312671 + 1624 * 1626 * 1626 = 4294967295 ∧
    (∀ x2 off2, mn_decode_word_index idx x off = .ok (x2, off2) → x2 < 4294967296) := by
  obtain ⟨h0, h1, h2, h3⟩ := decReach_bound x off hr
  refine ⟨?_, ?_, ?_, by norm_num, ?_⟩
  · intro hm
    have := h1 hm
    omega
  · intro hm hlt hne
    have hx := h2 hm
    by_cases hchk : 1625 ≤ idx ∨ (idx = 1624 ∧ 1312671 < x)
    · exact absurd (decode_step2_invalid idx x off hm hlt hchk) hne
    · omega
  · intro hm hge
    have := h2 hm
    omega
  · intro x2 off2 hstep
    have hm : off % 4 = 0 ∨ off % 4 = 1 ∨ off % 4 = 2 ∨ off % 4 = 3 := by omega
    rcases hm with hm | hm | hm | hm
    · by_cases hge : 1626 ≤ idx
      · rw [decode_step_remword idx x off (by omega) hge] at hstep
        cases hstep
      · rw [decode_step0 idx x off hm (by omega)] at hstep
        simp only [Except.ok.injEq, Prod.mk.injEq] at hstep
        omega
    · by_cases hge : 1626 ≤ idx
      · rw [decode_step_remword idx x off (by omega) hge] at hstep
        cases hstep
      · rw [decode_step1 idx x off hm (by omega)] at hstep
        simp only [Except.ok.injEq, Prod.mk.injEq] at hstep
        have : u32add x (u32mul idx 1626) < 4294967296 := Nat.mod_lt _ (by norm_num)
        omega
    · by_cases hge : 1626 ≤ idx
      · rw [decode_step2_rem idx x off hm hge] at hstep
        simp only [Except.ok.injEq, Prod.mk.injEq] at hstep
        have : u32add x (u32mul (u32mul (idx - 1626) 1626) 1626) < 4294967296 :=
          Nat.mod_lt _ (by norm_num)
        omega
      · by_cases hchk : 1625 ≤ idx ∨ (idx = 1624 ∧ 1312671 < x)
        · rw [decode_step2_invalid idx x off hm (by omega) hchk] at hstep
          cases hstep
        · rw [decode_step2_base idx x off hm (by omega) (by omega)] at hstep
          simp only [Except.ok.injEq, Prod.mk.injEq] at hstep
          have : u32add x (u32mul (u32mul idx 1626) 1626) < 4294967296 :=
            Nat.mod_lt _ (by norm_num)
          omega
    · by_cases hge : 1626 ≤ idx
      · rw [decode_step3_rem idx x off hm hge] at hstep
        cases hstep
      · rw [decode_step3_base idx x off hm (by omega)] at hstep
        cases hstep

theorem claim_C10_witness : (5:Nat) + 10 * 1626 < 4294967296 := by
  have hr : DecReach 5 1 := by
    have h2 := @DecReach.step 5 0 0 5 1 (by decide) DecReach.init (by decide)
    simpa using h2
  exact (claim_C10_no_overflow 5 1 10 hr (by decide)).1 (by decide)
